import Mathlib

/-!
Webapp front end: HTTP client wrapper and route guards

A shallow embedding of

* `src/frontend/src/services/api.js` (the axios instance `api`, its request
  interceptor and its response interceptor),
* `src/frontend/src/context/AuthContext.jsx` (`hasRole`, `isAdmin`, `isStaff`,
  `initAuth`, `login`, `logout`),
* `src/frontend/src/components/auth/ProtectedRoute.jsx` and `AdminRoute.jsx`,
* the route table of `src/frontend/src/App.jsx`,
* the submit handlers of `src/frontend/src/pages/auth/Login.jsx`,
  `src/frontend/src/pages/auth/ResetPassword.jsx` and
  `src/frontend/src/pages/public/Contact.jsx`,
* the page list of `src/frontend/src/components/common/Pagination.jsx`,
* the list handlers of `src/frontend/src/pages/admin/Users.jsx`, `Blogs.jsx` and
  `Contacts.jsx`.

Browser state that the code reads and writes (`localStorage`,
`window.location.href`) is passed explicitly; the network is an oracle that
answers each request, and every call made is appended to a log.
-/

set_option autoImplicit false

namespace Webapp

/-! ## Browser storage -/

/-- The browser key-value store: `getItem k` is `none` when the key is absent
(JavaScript `null`). -/
def LocalStorage : Type := String → Option String

namespace LocalStorage

/-- A store with no entries. -/
def empty : LocalStorage := fun _ => none

/-- Reading `localStorage.getItem(key)`. -/
def getItem (ls : LocalStorage) (key : String) : Option String := ls key

/-- Effect of `localStorage.setItem(key, value)`. -/
def setItem (ls : LocalStorage) (key value : String) : LocalStorage :=
  fun k => if k = key then some value else ls k

/-- Effect of `localStorage.removeItem(key)`. -/
def removeItem (ls : LocalStorage) (key : String) : LocalStorage :=
  fun k => if k = key then none else ls k

end LocalStorage

/-- JavaScript truthiness of a value that is `null` or a string: `null` and
the empty string are falsy. -/
def truthy : Option String → Bool
  | none => false
  | some s => s != ""

/-- What a template literal or `setItem` makes of a value that is a string or
`undefined`. -/
def jsString : Option String → String
  | some s => s
  | none => "undefined"

/-! ## Requests, responses, errors -/

/-- The headers of a request config: the `Authorization` entry and the rest. -/
structure Headers where
  Authorization : Option String
  others : List (String × String)
  deriving DecidableEq, Repr

/-- An axios request config, with the custom `_retry` mark. -/
structure RequestConfig where
  method : String
  url : String
  headers : Headers
  data : Option String
  _retry : Bool
  deriving DecidableEq, Repr

/-- What the server sent back: a status and a body. -/
structure Reply where
  status : Nat
  data : String
  deriving DecidableEq, Repr

/-- An axios response: the reply together with the config that was sent. -/
structure Response where
  status : Nat
  data : String
  config : RequestConfig
  deriving DecidableEq, Repr

/-- An axios error: `config` may be missing, and `response` is missing when
no reply was received. -/
structure AxiosError where
  config : Option RequestConfig
  response : Option Reply
  deriving DecidableEq, Repr

/-- What a rejected promise carries. -/
inductive Rejection where
  | axiosError (error : AxiosError)
  | typeError
  deriving DecidableEq, Repr

/-- A settled promise. -/
inductive Settled where
  | resolved (response : Response)
  | rejected (reason : Rejection)
  deriving DecidableEq, Repr

/-- The body of a successful refresh reply; `access` is `none` when the body
has no such member. -/
structure RefreshData where
  access : Option String
  deriving DecidableEq, Repr

/-- The network as seen from the client. `adapter` answers a request sent
through the `api` instance: `Except.ok` for a reply axios resolves with,
`Except.error` for a failure (with the reply when there was one). `refresh`
answers the bare `axios.post` to the refresh endpoint with the given refresh
token; `Except.ok none` is a reply whose body is `null`. -/
structure Backend where
  VITE_API_URL : Option String
  adapter : RequestConfig → Except (Option Reply) Reply
  refresh : String → Except Unit (Option RefreshData)

/-- The constant `API_BASE_URL = import.meta.env.VITE_API_URL || "/api"`. -/
def API_BASE_URL (srv : Backend) : String :=
  match srv.VITE_API_URL with
  | some u => if truthy (some u) then u else "/api"
  | none => "/api"

/-- One entry of the network log. -/
inductive NetCall where
  | refreshPost (url : String) (refresh : String)
  | apiRequest (config : RequestConfig)
  deriving DecidableEq, Repr

/-- The browser state the client code touches. -/
structure Browser where
  localStorage : LocalStorage
  href : String
  log : List NetCall

/-! ## `api.interceptors.request.use` -/

/-- The request interceptor of `api` (api.js lines 14-21). -/
def requestInterceptor (ls : LocalStorage) (config : RequestConfig) : RequestConfig :=
  let token := ls.getItem "access_token"
  if truthy token then
    { config with headers := { config.headers with Authorization := some ("Bearer " ++ jsString token) } }
  else
    config

/-! ## `api.interceptors.response.use` -/

/-- The catch block of the response interceptor (api.js lines 50-56). -/
def refreshFailed (b : Browser) : Browser :=
  { b with
    localStorage :=
      ((b.localStorage.removeItem "access_token").removeItem "refresh_token").removeItem "user"
    href := "/login" }

/-- The error handler of the response interceptor (api.js lines 30-60).
`apiCall` is the instance `api` itself, used for the retry; it returns `none`
when it does not settle. The `_retry` mark is written to the config object the
error carries, so the error rejected with at the end carries the marked
config. -/
def responseErrorInterceptor
    (apiCall : Browser → RequestConfig → Option (Browser × Settled))
    (srv : Backend) (b : Browser) (error : AxiosError) : Option (Browser × Settled) :=
  if (error.response.map (·.status)) = some 401 then
    match error.config with
    | none => some (b, .rejected .typeError)
    | some originalRequest =>
      if !originalRequest._retry then
        let originalRequest := { originalRequest with _retry := true }
        let error := { error with config := some originalRequest }
        let refreshToken := b.localStorage.getItem "refresh_token"
        if truthy refreshToken then
          let b := { b with log := b.log ++
            [.refreshPost (API_BASE_URL srv ++ "/auth/refresh/") (jsString refreshToken)] }
          match srv.refresh (jsString refreshToken) with
          | .ok (some data) =>
            let access := data.access
            let b := { b with
              localStorage := b.localStorage.setItem "access_token" (jsString access) }
            let originalRequest := { originalRequest with
              headers := { originalRequest.headers with
                Authorization := some ("Bearer " ++ jsString access) } }
            apiCall b originalRequest
          | .ok none => some (refreshFailed b, .rejected (.axiosError error))
          | .error _ => some (refreshFailed b, .rejected (.axiosError error))
        else
          some (b, .rejected (.axiosError error))
      else
        some (b, .rejected (.axiosError error))
  else
    some (b, .rejected (.axiosError error))

/-- A call `api(config)`: the request interceptor, the adapter, then the
response interceptors. The fuel bounds the nesting of retries. -/
def api (srv : Backend) : Nat → Browser → RequestConfig → Option (Browser × Settled)
  | 0, _, _ => none
  | fuel + 1, b, config =>
    let config := requestInterceptor b.localStorage config
    let b := { b with log := b.log ++ [.apiRequest config] }
    match srv.adapter config with
    | .ok reply => some (b, .resolved { status := reply.status, data := reply.data, config := config })
    | .error reply =>
      responseErrorInterceptor (api srv fuel) srv b { config := some config, response := reply }

/-! ## Auth context: role checks -/

/-- The user object held by the auth context. -/
structure User where
  id : Nat
  username : String
  email : String
  role : String
  deriving DecidableEq, Repr

/-- The part of the auth context the guards read: `user` is `none` for
`null`. -/
structure AuthState where
  user : Option User
  loading : Bool
  deriving DecidableEq, Repr

/-- The argument of `hasRole`: a single role name or an array of them. -/
inductive Roles where
  | str (role : String)
  | arr (roles : List String)
  deriving DecidableEq, Repr

/-- The function `hasRole` of AuthContext.jsx (lines 132-138). -/
def hasRole (user : Option User) (roles : Roles) : Bool :=
  match user with
  | none => false
  | some u =>
    match roles with
    | .str r => u.role == r
    | .arr rs => rs.contains u.role

/-- The function `isAdmin` of AuthContext.jsx (line 140). -/
def isAdmin (user : Option User) : Bool := hasRole user (.str "admin")

/-- The function `isStaff` of AuthContext.jsx (line 141). -/
def isStaff (user : Option User) : Bool := hasRole user (.arr ["staff", "admin"])

/-! ## Route guards -/

/-- A router location. -/
structure Location where
  pathname : String
  search : String
  hash : String
  deriving DecidableEq, Repr

/-- The navigation state `{ from: location }` passed to `Navigate`. -/
structure NavigateState where
  from_ : Location
  deriving DecidableEq, Repr

/-- The page components mounted by App.jsx. -/
inductive Page where
  | Home | Blogs | BlogDetail | Services | Contact | PublicProfile | Login | Register
  | StaffDashboard | StaffProfile | StaffBlogs | StaffBlogCreate | StaffBlogEdit
  | AdminDashboard | AdminUsers | AdminUserEdit | AdminBlogs | AdminBlogEdit
  | AdminCategories | AdminAnalytics | AdminContacts
  | NotFound
  deriving DecidableEq, Repr

/-- What a guard or a route renders: the loading spinner, a `Navigate`
redirect, the child subtree (`Outlet`), or a page. -/
inductive Element where
  | LoadingSpinner (size : String)
  | Navigate (to_ : String) (state : Option NavigateState) (replace : Bool)
  | Outlet
  | page (p : Page)
  deriving DecidableEq, Repr

/-- The component `ProtectedRoute` (ProtectedRoute.jsx lines 5-27). -/
def ProtectedRoute (auth : AuthState) (location : Location) : Element :=
  if auth.loading then
    .LoadingSpinner "lg"
  else if auth.user.isNone then
    .Navigate "/login" (some { from_ := location }) true
  else if !isStaff auth.user then
    .Navigate "/" none true
  else
    .Outlet

/-- The component `AdminRoute` (AdminRoute.jsx lines 5-26). -/
def AdminRoute (auth : AuthState) (location : Location) : Element :=
  if auth.loading then
    .LoadingSpinner "lg"
  else if auth.user.isNone then
    .Navigate "/login" (some { from_ := location }) true
  else if !isAdmin auth.user then
    .Navigate "/dashboard" none true
  else
    .Outlet

/-- The redirect at the top of the `Login` page (Login.jsx lines 18-21). -/
def Login (auth : AuthState) : Element :=
  match auth.user with
  | some user => .Navigate (if user.role = "admin" then "/admin" else "/dashboard") none true
  | none => .page .Login

/-- The redirect at the top of the `Register` page (Register.jsx lines 22-25). -/
def Register (auth : AuthState) : Element :=
  match auth.user with
  | some _ => .Navigate "/" none true
  | none => .page .Register

/-! ## The route table of `App` -/

/-- The two guard components a route can sit under. -/
inductive Guard where
  | ProtectedRoute
  | AdminRoute
  deriving DecidableEq, Repr

/-- One `<Route path=... element=... />` of App.jsx with the guard of the
group it is nested in. -/
structure Route where
  path : String
  guard : Option Guard
  element : Page
  deriving DecidableEq, Repr

/-- The routes of `App` (App.jsx lines 44-84), in source order. -/
def routes : List Route :=
  [ { path := "/", guard := none, element := .Home },
    { path := "/blogs", guard := none, element := .Blogs },
    { path := "/blogs/:slug", guard := none, element := .BlogDetail },
    { path := "/services", guard := none, element := .Services },
    { path := "/contact", guard := none, element := .Contact },
    { path := "/profiles", guard := none, element := .PublicProfile },
    { path := "/login", guard := none, element := .Login },
    { path := "/register", guard := none, element := .Register },
    { path := "/dashboard", guard := some .ProtectedRoute, element := .StaffDashboard },
    { path := "/dashboard/profile", guard := some .ProtectedRoute, element := .StaffProfile },
    { path := "/dashboard/blogs", guard := some .ProtectedRoute, element := .StaffBlogs },
    { path := "/dashboard/blogs/new", guard := some .ProtectedRoute, element := .StaffBlogCreate },
    { path := "/dashboard/blogs/:id/edit", guard := some .ProtectedRoute, element := .StaffBlogEdit },
    { path := "/admin", guard := some .AdminRoute, element := .AdminDashboard },
    { path := "/admin/users", guard := some .AdminRoute, element := .AdminUsers },
    { path := "/admin/users/:id/edit", guard := some .AdminRoute, element := .AdminUserEdit },
    { path := "/admin/blogs", guard := some .AdminRoute, element := .AdminBlogs },
    { path := "/admin/blogs/:id/edit", guard := some .AdminRoute, element := .AdminBlogEdit },
    { path := "/admin/categories", guard := some .AdminRoute, element := .AdminCategories },
    { path := "/admin/analytics", guard := some .AdminRoute, element := .AdminAnalytics },
    { path := "/admin/contacts", guard := some .AdminRoute, element := .AdminContacts },
    { path := "*", guard := none, element := .NotFound } ]

/-- Splits a path at every slash. -/
def splitSlash : List Char → List (List Char)
  | [] => [[]]
  | c :: cs =>
    if c = '/' then [] :: splitSlash cs
    else
      match splitSlash cs with
      | [] => [[c]]
      | s :: ss => (c :: s) :: ss

/-- The non-empty segments of a path, so that a trailing slash is ignored. -/
def segments (path : String) : List (List Char) :=
  (splitSlash path.data).filter (fun s => !s.isEmpty)

/-- Segment-wise matching of a route pattern: a segment starting with a colon
is a parameter and matches any segment, a static segment matches itself
without regard to case (the router's default). -/
def matchSegments : List (List Char) → List (List Char) → Bool
  | [], [] => true
  | p :: ps, s :: ss =>
    (p.head? == some ':' || p.map Char.toLower == s.map Char.toLower) && matchSegments ps ss
  | _, _ => false

/-- Whether a route pattern matches a pathname; the pattern `*` matches
everything. -/
def matchPath (pattern pathname : String) : Bool :=
  pattern == "*" || matchSegments (segments pattern) (segments pathname)

/-- The route of the table rendered for a pathname. No two patterns of the
table other than `*` match the same pathname, and `*` stands last, so the
first match in source order is the router's best match. -/
def matchRoute (pathname : String) : Option Route :=
  routes.find? (fun r => matchPath r.path pathname)

/-- The guard component named by a `Guard`. -/
def Guard.render : Guard → AuthState → Location → Element
  | .ProtectedRoute => Webapp.ProtectedRoute
  | .AdminRoute => Webapp.AdminRoute

/-- What a page component renders first: `Login` and `Register` may redirect,
every other page of the table renders itself. -/
def renderPage (p : Page) (auth : AuthState) : Element :=
  match p with
  | .Login => Login auth
  | .Register => Register auth
  | p => .page p

/-- What `App` renders at a location: the matched route's guard decides
first, and where it renders its `Outlet` (or there is no guard) the page
does. Layout components render their `Outlet` unconditionally. -/
def App (auth : AuthState) (location : Location) : Element :=
  match matchRoute location.pathname with
  | none => .page .NotFound
  | some r =>
    match r.guard with
    | none => renderPage r.element auth
    | some g =>
      match g.render auth location with
      | .Outlet => renderPage r.element auth
      | e => e

/-! ## Derived notions used in the statements -/

/-- The config the response interceptor passes to `api` for the retry: the
original one with the `_retry` mark (line 35) and the new `Authorization`
header (line 47). -/
def retriedRequest (c : RequestConfig) (access : String) : RequestConfig :=
  { c with
    _retry := true
    headers := { c.headers with Authorization := some ("Bearer " ++ access) } }

/-- Number of calls to the refresh endpoint in a log. -/
def refreshCalls : List NetCall → Nat
  | [] => 0
  | .refreshPost _ _ :: l => refreshCalls l + 1
  | .apiRequest _ :: l => refreshCalls l

/-- Number of requests sent through `api` in a log. -/
def apiRequests : List NetCall → Nat
  | [] => 0
  | .refreshPost _ _ :: l => apiRequests l
  | .apiRequest _ :: l => apiRequests l + 1

/-- Whether `App` shows a user the page of the route their path matches: the
path matches a route other than the catch-all, and neither the guard nor the
page redirects. -/
def admitted (auth : AuthState) (pathname : String) : Bool :=
  match matchRoute pathname with
  | none => false
  | some r =>
    r.path != "*" && App auth { pathname := pathname, search := "", hash := "" } == .page r.element

/-! ## Concrete inputs -/

/-- A request for the current user, not yet retried. -/
def demoConfig : RequestConfig :=
  { method := "get", url := "/users/me/",
    headers := { Authorization := some "Bearer old", others := [("Content-Type", "application/json")] },
    data := none, _retry := false }

/-- A store holding a session. -/
def demoStorage : LocalStorage :=
  ((LocalStorage.empty.setItem "access_token" "old").setItem "refresh_token" "r1").setItem
    "user" "\x7b\x7d"

/-- A browser on the staff dashboard with a stored session. -/
def demoBrowser : Browser := { localStorage := demoStorage, href := "/dashboard", log := [] }

/-- A backend that accepts the token `new` only and refreshes `r1` to `new`. -/
def demoBackend : Backend :=
  { VITE_API_URL := none
    adapter := fun c =>
      if c.headers.Authorization = some "Bearer new" then .ok { status := 200, data := "me" }
      else .error (some { status := 401, data := "" })
    refresh := fun r => if r = "r1" then .ok (some { access := some "new" }) else .error () }

/-- A backend whose refresh endpoint rejects every token. -/
def expiredBackend : Backend :=
  { VITE_API_URL := none
    adapter := fun _ => .error (some { status := 401, data := "" })
    refresh := fun _ => .error () }

/-- The 401 error of the first attempt of `demoConfig`. -/
def demoError : AxiosError :=
  { config := some demoConfig, response := some { status := 401, data := "" } }

/-- The 401 error of a request that has been retried already. -/
def retriedError : AxiosError :=
  { config := some { demoConfig with _retry := true }, response := some { status := 401, data := "" } }

/-- A signed-in customer. -/
def customer : User := { id := 3, username := "carol", email := "carol@example.com", role := "customer" }

/-- A signed-in staff member. -/
def staffUser : User := { id := 2, username := "sam", email := "sam@example.com", role := "staff" }

/-- The location of the admin user list. -/
def adminUsersLocation : Location := { pathname := "/admin/users", search := "?page=2", hash := "" }

/-! ## The API functions as their callers see them -/

/-- The body of an error reply, with the members the callers read
(`detail`, `error`); a member is `none` when the body lacks it. -/
structure ErrorData where
  detail : Option String
  error : Option String
  deriving DecidableEq, Repr

/-- The reply an error carries; `data` is `none` for an empty body. -/
structure ErrorResponse where
  status : Nat
  data : Option ErrorData
  deriving DecidableEq, Repr

/-- What a `catch` block receives: `response` is `none` when the error has no
reply (a network failure, or an exception that is no axios error). -/
structure ApiError where
  response : Option ErrorResponse
  deriving DecidableEq, Repr

/-- The expression `error.response?.data?.detail`. -/
def ApiError.detail (error : ApiError) : Option String :=
  (error.response.bind (·.data)).bind (·.detail)

/-- The expression `error.response?.data?.error`. -/
def ApiError.error (error : ApiError) : Option String :=
  (error.response.bind (·.data)).bind (·.error)

/-- The expression `x || d` for `x` a string, `null` or `undefined` and `d` a
string. -/
def jsOr (x : Option String) (d : String) : String :=
  if truthy x then jsString x else d

/-- The body `{ access, refresh, user }` of a successful login reply. -/
structure LoginData where
  access : String
  refresh : String
  user : User
  deriving DecidableEq, Repr

/-- A blog row of the admin list. -/
structure Blog where
  id : Nat
  title : String
  status : String
  is_featured : Bool
  deriving DecidableEq, Repr

/-- A contact submission row of the admin list. -/
structure ContactSubmission where
  id : Nat
  name : String
  email : String
  message : String
  is_read : Bool
  is_replied : Bool
  deriving DecidableEq, Repr

/-- The functions of api.js that the modelled callers use, each a request
through `api` that settles: `Except.ok` with the part of `response.data` the
caller reads, `Except.error` with the error thrown. The calls of the auth
context also return the browser state the interceptors leave behind.
`stringify` is `JSON.stringify` on a user object. The fields stand for
`userAPI.getMe` (api.js line 78), `authAPI.login` (65), `authAPI.logout` (67),
`analyticsAPI.submitContact` (140), `userAPI.adminDeleteUser` (93),
`userAPI.adminUpdateUserRole` (94), `blogAPI.adminDeleteBlog` (120),
`blogAPI.adminUpdateStatus` (121), `blogAPI.adminToggleFeatured` (122),
`analyticsAPI.markContactReplied` (154) and `analyticsAPI.deleteContact`
(153). -/
structure Services where
  stringify : User → String
  getMe : Browser → Browser × Except ApiError User
  login : String → String → Browser → Browser × Except ApiError LoginData
  logout : String → Browser → Browser × Except ApiError Unit
  submitContact : List (String × String) → Except ApiError Unit
  adminDeleteUser : Nat → Except ApiError Unit
  adminUpdateUserRole : Nat → String → Except ApiError Unit
  adminDeleteBlog : Nat → Except ApiError Unit
  adminUpdateStatus : Nat → String → Except ApiError Unit
  adminToggleFeatured : Nat → Except ApiError Bool
  markContactReplied : Nat → Except ApiError Unit
  deleteContact : Nat → Except ApiError Unit

/-- What a handler does that is seen from outside, in the order it happens. -/
inductive Effect where
  | request (name : String)
  | settled (name : String) (ok : Bool)
  | setUser (user : Option User)
  | setLoading (loading : Bool)
  | toastSuccess (message : String)
  | toastError (message : String)
  | consoleError (message : String)
  | navigate (to_ : String)
  | reset
  deriving DecidableEq, Repr

/-! ## `AuthProvider` -/

/-- The state around `AuthProvider`: its `user` and `loading` state, the
browser, the router location with the state it carries, and the effects so
far. -/
structure AuthProvider where
  user : Option User
  loading : Bool
  browser : Browser
  location : Location
  locationState : Option NavigateState
  effects : List Effect

/-- The context value the guards read. -/
def AuthProvider.value (s : AuthProvider) : AuthState :=
  { user := s.user, loading := s.loading }

/-- The state on mount: `useState(null)` and `useState(true)`. -/
def AuthProvider.mount (browser : Browser) (location : Location)
    (locationState : Option NavigateState) : AuthProvider :=
  { user := none, loading := true, browser := browser, location := location,
    locationState := locationState, effects := [] }

/-- The router function `navigate(to)`: the location becomes `to`, with no
state. -/
def navigate (to_ : String) (s : AuthProvider) : AuthProvider :=
  { s with
    location := { pathname := to_, search := "", hash := "" }
    locationState := none
    effects := s.effects ++ [.navigate to_] }

/-- The three `removeItem` calls shared by `initAuth` and `logout`. -/
def clearCredentials (ls : LocalStorage) : LocalStorage :=
  ((ls.removeItem "access_token").removeItem "refresh_token").removeItem "user"

/-- The function `initAuth` run by the mount effect (AuthContext.jsx lines
23-43). -/
def initAuth (svc : Services) (s : AuthProvider) : AuthProvider :=
  let token := s.browser.localStorage.getItem "access_token"
  let savedUser := s.browser.localStorage.getItem "user"
  let s : AuthProvider :=
    if truthy token && truthy savedUser then
      let s : AuthProvider := { s with effects := s.effects ++ [.request "userAPI.getMe"] }
      match svc.getMe s.browser with
      | (b, .ok data) =>
        { s with
          user := some data
          browser := { b with localStorage := b.localStorage.setItem "user" (svc.stringify data) }
          effects := s.effects ++ [.settled "userAPI.getMe" true, .setUser (some data)] }
      | (b, .error _) =>
        { s with
          user := none
          browser := { b with localStorage := clearCredentials b.localStorage }
          effects := s.effects ++ [.settled "userAPI.getMe" false, .setUser none] }
    else
      s
  { s with loading := false, effects := s.effects ++ [.setLoading false] }

/-- The object `login` returns. -/
structure LoginResult where
  success : Bool
  error : Option String
  deriving DecidableEq, Repr

/-- The function `login` (AuthContext.jsx lines 48-75). -/
def login (svc : Services) (email password : String) (s : AuthProvider) :
    AuthProvider × LoginResult :=
  let s : AuthProvider := { s with effects := s.effects ++ [.request "authAPI.login"] }
  match svc.login email password s.browser with
  | (b, .ok data) =>
    let ls := b.localStorage.setItem "access_token" data.access
    let ls := ls.setItem "refresh_token" data.refresh
    let ls := ls.setItem "user" (svc.stringify data.user)
    let s : AuthProvider := { s with
      browser := { b with localStorage := ls }
      user := some data.user
      effects := s.effects ++
        [.settled "authAPI.login" true, .setUser (some data.user),
         .toastSuccess "Login successful!"] }
    let s : AuthProvider :=
      if data.user.role = "admin" then navigate "/admin" s
      else if data.user.role = "staff" then navigate "/dashboard" s
      else navigate "/" s
    (s, { success := true, error := none })
  | (b, .error error) =>
    let message := jsOr error.detail "Login failed. Please check your credentials."
    ({ s with
       browser := b
       effects := s.effects ++ [.settled "authAPI.login" false, .toastError message] },
     { success := false, error := some message })

/-- The function `logout` (AuthContext.jsx lines 108-124). -/
def logout (svc : Services) (s : AuthProvider) : AuthProvider :=
  let refreshToken := s.browser.localStorage.getItem "refresh_token"
  let s : AuthProvider :=
    if truthy refreshToken then
      let s : AuthProvider := { s with effects := s.effects ++ [.request "authAPI.logout"] }
      match svc.logout (jsString refreshToken) s.browser with
      | (b, .ok _) =>
        { s with browser := b, effects := s.effects ++ [.settled "authAPI.logout" true] }
      | (b, .error _) =>
        { s with browser := b, effects := s.effects ++ [.settled "authAPI.logout" false] }
    else
      s
  let s : AuthProvider := { s with
    browser := { s.browser with localStorage := clearCredentials s.browser.localStorage }
    user := none
    effects := s.effects ++ [.setUser none, .toastSuccess "Logged out successfully"] }
  navigate "/login" s

/-- The values of the login form. -/
structure LoginForm where
  email : String
  password : String
  deriving DecidableEq, Repr

/-- The handler `onSubmit` of the `Login` page (Login.jsx lines 23-27); the
first component is the page's own `loading` state. -/
def Login.onSubmit (svc : Services) (data : LoginForm) (s : Bool × AuthProvider) :
    Bool × AuthProvider :=
  let s : Bool × AuthProvider := (true, s.2)
  let s : Bool × AuthProvider := (s.1, (login svc data.email data.password s.2).1)
  (false, s.2)

/-! ## The contact form -/

/-- The state of the `Contact` page: its `loading` state, the form values and
the effects so far. -/
structure ContactState where
  loading : Bool
  values : List (String × String)
  effects : List Effect
  deriving DecidableEq, Repr

/-- The handler `onSubmit` of the contact form (Contact.jsx lines 26-38).
`reset()` puts the form back to its default values, of which `useForm()`
declares none. -/
def Contact.onSubmit (svc : Services) (data : List (String × String)) (s : ContactState) :
    ContactState :=
  let s : ContactState := { s with
    loading := true
    effects := s.effects ++ [.setLoading true, .request "analyticsAPI.submitContact"] }
  let s : ContactState :=
    match svc.submitContact data with
    | .ok _ =>
      { s with
        values := []
        effects := s.effects ++
          [.settled "analyticsAPI.submitContact" true,
           .toastSuccess "Message sent successfully! We will get back to you soon.",
           .reset] }
    | .error _ =>
      { s with
        effects := s.effects ++
          [.settled "analyticsAPI.submitContact" false,
           .consoleError "Error submitting contact form:",
           .toastError "Failed to send message. Please try again."] }
  { s with loading := false, effects := s.effects ++ [.setLoading false] }

/-! ## Admin list pages

A handler is a closure of the render in which it was created: `render` is the
page state that render saw (the `users`, `blogs`, `contacts` the handler reads),
`s` is the page state at the time the awaited call has settled, which the
handler's `set...` calls and notifications update. When nothing else happened
in between, the two are the same. `confirmed` is the answer of `confirm(...)`. -/

/-- The state of the `AdminUsers` page. -/
structure AdminUsersState where
  users : List User
  effects : List Effect
  deriving DecidableEq, Repr

/-- The handler `handleDelete` of Users.jsx (lines 56-67). -/
def AdminUsers.handleDelete (svc : Services) (confirmed : Bool) (render : AdminUsersState)
    (id : Nat) (s : AdminUsersState) : AdminUsersState :=
  if !confirmed then s
  else
    match svc.adminDeleteUser id with
    | .ok _ =>
      { s with
        users := render.users.filter (fun u => u.id != id)
        effects := s.effects ++ [.toastSuccess "User deleted successfully"] }
    | .error error =>
      { s with
        effects := s.effects ++
          [.consoleError "Error deleting user:",
           .toastError (jsOr error.error "Failed to delete user")] }

/-- The handler `handleRoleChange` of Users.jsx (lines 69-78). -/
def AdminUsers.handleRoleChange (svc : Services) (render : AdminUsersState)
    (userId : Nat) (newRole : String) (s : AdminUsersState) : AdminUsersState :=
  match svc.adminUpdateUserRole userId newRole with
  | .ok _ =>
    { s with
      users := render.users.map (fun u => if u.id = userId then { u with role := newRole } else u)
      effects := s.effects ++ [.toastSuccess "User role updated"] }
  | .error error =>
    { s with
      effects := s.effects ++
        [.consoleError "Error updating role:",
         .toastError (jsOr error.error "Failed to update role")] }

/-- The state of the `AdminBlogs` page. -/
structure AdminBlogsState where
  blogs : List Blog
  effects : List Effect
  deriving DecidableEq, Repr

/-- The handler `handleDelete` of admin/Blogs.jsx (lines 41-50). -/
def AdminBlogs.handleDelete (svc : Services) (confirmed : Bool) (render : AdminBlogsState)
    (id : Nat) (s : AdminBlogsState) : AdminBlogsState :=
  if !confirmed then s
  else
    match svc.adminDeleteBlog id with
    | .ok _ =>
      { s with
        blogs := render.blogs.filter (fun b => b.id != id)
        effects := s.effects ++ [.toastSuccess "Blog deleted"] }
    | .error _ =>
      { s with effects := s.effects ++ [.toastError "Failed to delete blog"] }

/-- The handler `handleStatusChange` of admin/Blogs.jsx (lines 52-60). -/
def AdminBlogs.handleStatusChange (svc : Services) (render : AdminBlogsState)
    (id : Nat) (status : String) (s : AdminBlogsState) : AdminBlogsState :=
  match svc.adminUpdateStatus id status with
  | .ok _ =>
    { s with
      blogs := render.blogs.map (fun b => if b.id = id then { b with status := status } else b)
      effects := s.effects ++ [.toastSuccess "Status updated"] }
  | .error _ =>
    { s with effects := s.effects ++ [.toastError "Failed to update status"] }

/-- The handler `handleToggleFeatured` of admin/Blogs.jsx (lines 62-70); the
call answers with `response.data.is_featured`. -/
def AdminBlogs.handleToggleFeatured (svc : Services) (render : AdminBlogsState)
    (id : Nat) (s : AdminBlogsState) : AdminBlogsState :=
  match svc.adminToggleFeatured id with
  | .ok is_featured =>
    { s with
      blogs := render.blogs.map
        (fun b => if b.id = id then { b with is_featured := is_featured } else b)
      effects := s.effects ++ [.toastSuccess "Featured status updated"] }
  | .error _ =>
    { s with effects := s.effects ++ [.toastError "Failed to update"] }

/-- The state of the `AdminContacts` page. -/
structure AdminContactsState where
  contacts : List ContactSubmission
  selectedContact : Option ContactSubmission
  effects : List Effect
  deriving DecidableEq, Repr

/-- The handler `handleMarkReplied` of Contacts.jsx (lines 39-50). -/
def AdminContacts.handleMarkReplied (svc : Services) (render : AdminContactsState)
    (id : Nat) (s : AdminContactsState) : AdminContactsState :=
  match svc.markContactReplied id with
  | .ok _ =>
    { s with
      contacts := render.contacts.map
        (fun c => if c.id = id then { c with is_replied := true } else c)
      selectedContact :=
        match render.selectedContact with
        | some sel => if sel.id = id then some { sel with is_replied := true } else s.selectedContact
        | none => s.selectedContact
      effects := s.effects ++ [.toastSuccess "Marked as replied"] }
  | .error _ =>
    { s with effects := s.effects ++ [.toastError "Failed to update"] }

/-- The handler `handleDelete` of Contacts.jsx (lines 52-62). -/
def AdminContacts.handleDelete (svc : Services) (confirmed : Bool) (render : AdminContactsState)
    (id : Nat) (s : AdminContactsState) : AdminContactsState :=
  if !confirmed then s
  else
    match svc.deleteContact id with
    | .ok _ =>
      { s with
        contacts := render.contacts.filter (fun c => c.id != id)
        selectedContact :=
          match render.selectedContact with
          | some sel => if sel.id = id then none else s.selectedContact
          | none => s.selectedContact
        effects := s.effects ++ [.toastSuccess "Contact deleted"] }
    | .error _ =>
      { s with effects := s.effects ++ [.toastError "Failed to delete"] }

/-! ## Concrete inputs for the auth context and the pages -/

/-- An admin. -/
def adminUser : User := { id := 1, username := "ada", email := "ada@example.com", role := "admin" }

/-- A serialisation of user objects, standing for `JSON.stringify`. -/
def demoStringify (u : User) : String :=
  "\x7b\"id\":" ++ toString u.id ++ ",\"username\":\"" ++ u.username ++ "\",\"email\":\"" ++
    u.email ++ "\",\"role\":\"" ++ u.role ++ "\"\x7d"

/-- An error reply with an empty `detail`. -/
def emptyDetailError : ApiError :=
  { response := some { status := 400, data := some { detail := some "", error := none } } }

/-- An error reply with a `detail` message. -/
def badCredentials : ApiError :=
  { response := some
      { status := 401
        data := some
          { detail := some "No active account found with the given credentials"
            error := none } } }

/-- Services in which every call succeeds; the session belongs to
`staffUser`. -/
def demoServices : Services :=
  { stringify := demoStringify
    getMe := fun b => (b, .ok staffUser)
    login := fun _ _ b => (b, .ok { access := "a1", refresh := "r1", user := staffUser })
    logout := fun _ b => (b, .ok ())
    submitContact := fun _ => .ok ()
    adminDeleteUser := fun _ => .ok ()
    adminUpdateUserRole := fun _ _ => .ok ()
    adminDeleteBlog := fun _ => .ok ()
    adminUpdateStatus := fun _ _ => .ok ()
    adminToggleFeatured := fun _ => .ok true
    markContactReplied := fun _ => .ok ()
    deleteContact := fun _ => .ok () }

/-- Services in which every call fails without a reply, except that `login`
fails with `badCredentials`. -/
def failingServices : Services :=
  { stringify := demoStringify
    getMe := fun b => (b, .error { response := none })
    login := fun _ _ b => (b, .error badCredentials)
    logout := fun _ b => (b, .error { response := none })
    submitContact := fun _ => .error { response := none }
    adminDeleteUser := fun _ => .error { response := none }
    adminUpdateUserRole := fun _ _ => .error { response := none }
    adminDeleteBlog := fun _ => .error { response := none }
    adminUpdateStatus := fun _ _ => .error { response := none }
    adminToggleFeatured := fun _ => .error { response := none }
    markContactReplied := fun _ => .error { response := none }
    deleteContact := fun _ => .error { response := none } }

/-- Services whose `login` fails with an empty `detail`. -/
def emptyDetailServices : Services :=
  { failingServices with
    login := fun _ _ b => (b, Except.error emptyDetailError) }

/-- The provider on mount with a stored session, at the login page reached
from the admin user list. -/
def demoProvider : AuthProvider :=
  AuthProvider.mount demoBrowser { pathname := "/login", search := "", hash := "" }
    (some { from_ := adminUsersLocation })

/-- The provider on mount with an empty store. -/
def freshProvider : AuthProvider :=
  AuthProvider.mount { localStorage := LocalStorage.empty, href := "/", log := [] }
    { pathname := "/", search := "", hash := "" } none

/-- A filled-in contact form. -/
def demoContact : ContactState :=
  { loading := false
    values := [("name", "Carol"), ("email", "carol@example.com"), ("subject", "Hello"),
               ("message", "A question about your services.")]
    effects := [] }

/-- An admin user list. -/
def demoUsers : AdminUsersState :=
  { users := [adminUser, staffUser, customer], effects := [] }

/-- An admin blog list. -/
def demoBlogs : AdminBlogsState :=
  { blogs := [{ id := 1, title := "First", status := "draft", is_featured := false },
              { id := 2, title := "Second", status := "published", is_featured := true }]
    effects := [] }

/-- An admin contact list with the first entry selected. -/
def demoContacts : AdminContactsState :=
  { contacts := [{ id := 1, name := "Carol", email := "carol@example.com", message := "Hi",
                   is_read := true, is_replied := false },
                 { id := 2, name := "Dan", email := "dan@example.com", message := "Hello",
                   is_read := false, is_replied := false }]
    selectedContact := some { id := 1, name := "Carol", email := "carol@example.com",
                              message := "Hi", is_read := true, is_replied := false }
    effects := [] }

/-- A failure that carries no response at all. -/
def networkError : AxiosError := { config := some demoConfig, response := none }

/-! ## The password reset form -/

/-- The value of `s.length` in JavaScript: the number of UTF-16 code units,
two for a character outside the basic plane. -/
def jsLength (s : String) : Nat :=
  (s.data.map (fun c => if c.val.toNat < 65536 then 1 else 2)).sum

/-- The state `formData` of the reset form. -/
structure ResetFormData where
  new_password : String
  new_password_confirm : String
  deriving DecidableEq, Repr

/-- The state `status` of the reset form. -/
structure Status where
  type : String
  message : String
  deriving DecidableEq, Repr

/-- The body sent by `authAPI.passwordResetConfirm`; `token` is `none` when
the URL has no `token` parameter. -/
structure ResetRequest where
  token : Option String
  new_password : String
  new_password_confirm : String
  deriving DecidableEq, Repr

/-- The members of an error body that the reset form reads. -/
structure ResetErrorData where
  error : Option String
  new_password : Option (List String)
  deriving DecidableEq, Repr

/-- The error caught by the reset form: `data` is `error.response?.data`. -/
structure ResetError where
  data : Option ResetErrorData
  deriving DecidableEq, Repr

/-- The state of the `ResetPassword` page that `handleSubmit` touches, with
the requests sent so far and the timers set so far (delay and target of the
navigation). -/
structure ResetPasswordState where
  token : Option String
  formData : ResetFormData
  loading : Bool
  status : Status
  success : Bool
  requests : List ResetRequest
  timers : List (Nat × String)
  deriving DecidableEq, Repr

/-- The handler `handleSubmit` of ResetPassword.jsx (lines 59-112);
`passwordResetConfirm` is the API function of api.js line 73. -/
def ResetPassword.handleSubmit (passwordResetConfirm : ResetRequest → Except ResetError Unit)
    (s : ResetPasswordState) : ResetPasswordState :=
  let s : ResetPasswordState := { s with loading := true, status := { type := "", message := "" } }
  if s.formData.new_password != s.formData.new_password_confirm then
    { s with
      status := { type := "error", message := "Passwords do not match." }
      loading := false }
  else if jsLength s.formData.new_password < 8 then
    { s with
      status := { type := "error", message := "Password must be at least 8 characters long." }
      loading := false }
  else
    let request : ResetRequest :=
      { token := s.token
        new_password := s.formData.new_password
        new_password_confirm := s.formData.new_password_confirm }
    let s : ResetPasswordState := { s with requests := s.requests ++ [request] }
    let s : ResetPasswordState :=
      match passwordResetConfirm request with
      | .ok _ =>
        { s with
          success := true
          status :=
            { type := "success", message := "Password reset successful! Redirecting to login..." }
          timers := s.timers ++ [(3000, "/login")] }
      | .error error =>
        let errorMsg :=
          jsOr (error.data.bind (·.error))
            (jsOr ((error.data.bind (·.new_password)).bind (·.head?))
              "Failed to reset password. Please try again.")
        { s with status := { type := "error", message := errorMsg } }
    { s with loading := false }

/-! ## Pagination -/

/-- An entry of the page list: a page number or the string `...`. -/
inductive PageItem where
  | num (n : Nat)
  | ellipsis
  deriving DecidableEq, Repr

/-- The loop `for (let i = a; i <= b; i++) pages.push(i)`. -/
def pushRange (a b : Nat) : List PageItem :=
  (List.range' a (b + 1 - a)).map .num

/-- The list `pages` built by `Pagination` (Pagination.jsx lines 4-27), `none`
when the component returns `null`. The subtractions are reached only with
`totalPages > 7`. -/
def Pagination.pages (currentPage totalPages : Nat) : Option (List PageItem) :=
  if totalPages ≤ 1 then none
  else
    let showEllipsis := decide (totalPages > 7)
    if showEllipsis then
      if currentPage ≤ 4 then
        some (pushRange 1 5 ++ [.ellipsis] ++ [.num totalPages])
      else if currentPage ≥ totalPages - 3 then
        some ([.num 1] ++ [.ellipsis] ++ pushRange (totalPages - 4) totalPages)
      else
        some ([.num 1] ++ [.ellipsis] ++ pushRange (currentPage - 1) (currentPage + 1)
          ++ [.ellipsis] ++ [.num totalPages])
    else
      some (pushRange 1 totalPages)

/-- The page numbers of a page list, in order. -/
def pageNumbers : List PageItem → List Nat
  | [] => []
  | .num n :: l => n :: pageNumbers l
  | .ellipsis :: l => pageNumbers l

/-! ## Following redirects -/

/-- Renders `App` at a location and follows `Navigate` redirects, at most
`fuel` of them: the element finally rendered and the number of redirects
taken, or `none` when a redirect is still pending after `fuel` of them. -/
def followRedirects : Nat → AuthState → Location → Option (Element × Nat)
  | 0, auth, location =>
    match App auth location with
    | .Navigate _ _ _ => none
    | e => some (e, 0)
  | fuel + 1, auth, location =>
    match App auth location with
    | .Navigate to_ _ _ =>
      (followRedirects fuel auth { pathname := to_, search := "", hash := "" }).map
        (fun r => (r.1, r.2 + 1))
    | e => some (e, 0)

/-! ## Concrete inputs for the later statements -/

/-- A browser with no stored session. -/
def anonymousBrowser : Browser := { localStorage := LocalStorage.empty, href := "/blogs", log := [] }

/-- A backend that refreshes `r1` to `new` and rejects every request. -/
def rejectingBackend : Backend :=
  { VITE_API_URL := none
    adapter := fun _ => .error (some { status := 401, data := "" })
    refresh := fun r => if r = "r1" then .ok (some { access := some "new" }) else .error () }

/-- The reset form with two different passwords. -/
def mismatchedReset : ResetPasswordState :=
  { token := some "tok"
    formData := { new_password := "longenough", new_password_confirm := "longenoughX" }
    loading := false, status := { type := "", message := "" }, success := false
    requests := [], timers := [] }

/-- The reset form with a password of seven characters, typed twice. -/
def shortReset : ResetPasswordState :=
  { mismatchedReset with formData := { new_password := "seven77", new_password_confirm := "seven77" } }

/-- The reset form with a password of eight characters, typed twice. -/
def validReset : ResetPasswordState :=
  { mismatchedReset with
    formData := { new_password := "eight888", new_password_confirm := "eight888" } }

/-- A provider whose store holds a cached user but no token. -/
def cachedAdminProvider : AuthProvider :=
  AuthProvider.mount
    { localStorage := LocalStorage.empty.setItem "user" "\x7b\"role\":\"admin\"\x7d"
      href := "/", log := [] }
    { pathname := "/", search := "", hash := "" } none

/-- The same provider with another cached user. -/
def cachedStaffProvider : AuthProvider :=
  AuthProvider.mount
    { localStorage := LocalStorage.empty.setItem "user" "\x7b\"role\":\"staff\"\x7d"
      href := "/", log := [] }
    { pathname := "/", search := "", hash := "" } none

/-- A provider whose store holds a token and an empty `user` entry. -/
def emptyUserProvider : AuthProvider :=
  AuthProvider.mount
    { localStorage := (LocalStorage.empty.setItem "access_token" "old").setItem "user" ""
      href := "/", log := [] }
    { pathname := "/", search := "", hash := "" } none

/-- The same provider with a cached user of role customer. -/
def customerUserProvider : AuthProvider :=
  AuthProvider.mount
    { localStorage :=
        (LocalStorage.empty.setItem "access_token" "old").setItem "user"
          "\x7b\"role\":\"customer\"\x7d"
      href := "/", log := [] }
    { pathname := "/", search := "", hash := "" } none

/-- A provider whose store holds a token and a cached user of role staff. -/
def staffUserProvider : AuthProvider :=
  AuthProvider.mount
    { localStorage :=
        (LocalStorage.empty.setItem "access_token" "old").setItem "user"
          "\x7b\"role\":\"staff\"\x7d"
      href := "/", log := [] }
    { pathname := "/", search := "", hash := "" } none

/-! ## Lemmas on the store and the interceptors -/

theorem getItem_setItem_same (ls : LocalStorage) (k v : String) :
    (ls.setItem k v).getItem k = some v := by
  simp [LocalStorage.getItem, LocalStorage.setItem]

theorem getItem_setItem_other (ls : LocalStorage) (k k' v : String) (h : k' ≠ k) :
    (ls.setItem k v).getItem k' = ls.getItem k' := by
  simp [LocalStorage.getItem, LocalStorage.setItem, h]

theorem getItem_removeItem_same (ls : LocalStorage) (k : String) :
    (ls.removeItem k).getItem k = none := by
  simp [LocalStorage.getItem, LocalStorage.removeItem]

theorem getItem_removeItem_other (ls : LocalStorage) (k k' : String) (h : k' ≠ k) :
    (ls.removeItem k).getItem k' = ls.getItem k' := by
  simp [LocalStorage.getItem, LocalStorage.removeItem, h]

theorem truthy_some (s : String) : truthy (some s) = true ↔ s ≠ "" := by
  simp [truthy]

/-- Sending the retried config right after the new token was stored leaves
the config as the response interceptor built it. -/
theorem requestInterceptor_retriedRequest (ls : LocalStorage) (c : RequestConfig) (a : String) :
    requestInterceptor (ls.setItem "access_token" a) (retriedRequest c a) = retriedRequest c a := by
  unfold requestInterceptor
  simp only [getItem_setItem_same, jsString]
  split
  · rfl
  · rfl

/-- An error whose config carries the `_retry` mark is passed on untouched. -/
theorem responseErrorInterceptor_of_retry
    (apiCall : Browser → RequestConfig → Option (Browser × Settled))
    (srv : Backend) (b : Browser) (error : AxiosError) (c : RequestConfig)
    (hc : error.config = some c) (hr : c._retry = true) :
    responseErrorInterceptor apiCall srv b error = some (b, .rejected (.axiosError error)) := by
  unfold responseErrorInterceptor
  simp [hc, hr]

theorem requestInterceptor_retry (ls : LocalStorage) (c : RequestConfig) :
    (requestInterceptor ls c)._retry = c._retry := by
  by_cases h : truthy (ls.getItem "access_token") = true <;> simp [requestInterceptor, h]

theorem refreshCalls_append (l₁ l₂ : List NetCall) :
    refreshCalls (l₁ ++ l₂) = refreshCalls l₁ + refreshCalls l₂ := by
  induction l₁ with
  | nil => simp [refreshCalls]
  | cons x l ih =>
    cases x
    · show refreshCalls (l ++ l₂) + 1 = refreshCalls l + 1 + refreshCalls l₂
      omega
    · exact ih

theorem apiRequests_append (l₁ l₂ : List NetCall) :
    apiRequests (l₁ ++ l₂) = apiRequests l₁ + apiRequests l₂ := by
  induction l₁ with
  | nil => simp [apiRequests]
  | cons x l ih =>
    cases x
    · exact ih
    · show apiRequests (l ++ l₂) + 1 = apiRequests l + 1 + apiRequests l₂
      omega

theorem api_succ (srv : Backend) (n : Nat) (b : Browser) (c : RequestConfig) :
    api srv (n + 1) b c =
      match srv.adapter (requestInterceptor b.localStorage c) with
      | .ok reply =>
        some ({ b with log := b.log ++ [.apiRequest (requestInterceptor b.localStorage c)] },
          .resolved { status := reply.status, data := reply.data,
                      config := requestInterceptor b.localStorage c })
      | .error reply =>
        responseErrorInterceptor (api srv n) srv
          { b with log := b.log ++ [.apiRequest (requestInterceptor b.localStorage c)] }
          { config := some (requestInterceptor b.localStorage c), response := reply } := rfl

/-- A call of `api` with a marked config sends one request and settles. -/
theorem api_of_retry (srv : Backend) (n : Nat) (b : Browser) (c : RequestConfig)
    (hr : c._retry = true) :
    ∃ b' result, api srv (n + 1) b c = some (b', result)
      ∧ b'.log = b.log ++ [.apiRequest (requestInterceptor b.localStorage c)] := by
  rw [api_succ]
  cases hreply : srv.adapter (requestInterceptor b.localStorage c) with
  | ok reply => exact ⟨_, _, rfl, rfl⟩
  | error reply =>
    refine ⟨{ b with log := b.log ++ [.apiRequest (requestInterceptor b.localStorage c)] },
      .rejected (.axiosError
        { config := some (requestInterceptor b.localStorage c), response := reply }), ?_, rfl⟩
    simp only []
    rw [responseErrorInterceptor_of_retry _ _ _ _ (requestInterceptor b.localStorage c) rfl
      (by rw [requestInterceptor_retry]; exact hr)]

/-- The response interceptor with `api` as the retry settles, after at most
one refresh call and at most one re-sent request. -/
theorem responseErrorInterceptor_calls (srv : Backend) (n : Nat) (b : Browser)
    (error : AxiosError) :
    ∃ b' result calls, responseErrorInterceptor (api srv (n + 1)) srv b error = some (b', result)
      ∧ b'.log = b.log ++ calls ∧ refreshCalls calls ≤ 1 ∧ apiRequests calls ≤ 1 := by
  unfold responseErrorInterceptor
  split
  · split
    · exact ⟨_, _, [], rfl, by simp, by simp [refreshCalls], by simp [apiRequests]⟩
    · rename_i c hc
      split
      · dsimp only
        split
        · split
          · rename_i data hdata
            obtain ⟨b', result, hres, hlog⟩ := api_of_retry srv n
              { localStorage := b.localStorage.setItem "access_token" (jsString data.access)
                href := b.href
                log := b.log ++ [.refreshPost (API_BASE_URL srv ++ "/auth/refresh/")
                  (jsString (b.localStorage.getItem "refresh_token"))] }
              { c with
                _retry := true
                headers := { c.headers with
                  Authorization := some ("Bearer " ++ jsString data.access) } } rfl
            refine ⟨b', result,
              [.refreshPost (API_BASE_URL srv ++ "/auth/refresh/")
                 (jsString (b.localStorage.getItem "refresh_token")),
               .apiRequest (requestInterceptor
                 (b.localStorage.setItem "access_token" (jsString data.access))
                 { c with
                   _retry := true
                   headers := { c.headers with
                     Authorization := some ("Bearer " ++ jsString data.access) } })],
              hres, ?_, ?_, ?_⟩
            · rw [hlog]
              simp only [List.append_assoc]
              rfl
            · simp [refreshCalls]
            · simp [apiRequests]
          · exact ⟨_, _, [_], rfl, rfl, by simp [refreshCalls], by simp [apiRequests]⟩
          · exact ⟨_, _, [_], rfl, rfl, by simp [refreshCalls], by simp [apiRequests]⟩
        · exact ⟨_, _, [], rfl, by simp, by simp [refreshCalls], by simp [apiRequests]⟩
      · exact ⟨_, _, [], rfl, by simp, by simp [refreshCalls], by simp [apiRequests]⟩
  · exact ⟨_, _, [], rfl, by simp, by simp [refreshCalls], by simp [apiRequests]⟩

theorem isStaff_some (u : User) :
    isStaff (some u) = true ↔ u.role = "staff" ∨ u.role = "admin" := by
  simp [isStaff, hasRole]

theorem isAdmin_some (u : User) : isAdmin (some u) = true ↔ u.role = "admin" := by
  simp [isAdmin, hasRole]

theorem matchRoute_root : matchRoute "/" = some { path := "/", guard := none, element := .Home } := by
  decide

theorem matchRoute_dashboard :
    matchRoute "/dashboard" =
      some { path := "/dashboard", guard := some .ProtectedRoute, element := .StaffDashboard } := by
  decide

/-- Every signed-in or signed-out visitor is shown the home page at `/`. -/
theorem admitted_root (auth : AuthState) : admitted auth "/" = true := by
  simp [admitted, App, matchRoute_root, renderPage]

/-! ## The authenticated request wrapper -/

/-- C1: on a 401 for a request not yet marked `_retry`, with a refresh token
`r` stored and the refresh call answering with access token `a`, the
interceptor settles; `access_token` becomes `a` (nothing else of the browser
state changes but the log), exactly one refresh call with `r` and one re-sent
request are made, the re-sent request carries `Authorization: Bearer a`, and
the caller gets what the re-sent request settles with. -/
theorem refresh_then_retry (srv : Backend) (n : Nat) (b : Browser) (error : AxiosError)
    (c : RequestConfig) (r a : String)
    (h401 : error.response.map (·.status) = some 401)
    (hc : error.config = some c) (hretry : c._retry = false)
    (hr : b.localStorage.getItem "refresh_token" = some r) (hne : r ≠ "")
    (hok : srv.refresh r = .ok (some { access := some a })) :
    responseErrorInterceptor (api srv (n + 1)) srv b error =
        some ({ localStorage := b.localStorage.setItem "access_token" a
                href := b.href
                log := b.log ++ [.refreshPost (API_BASE_URL srv ++ "/auth/refresh/") r,
                                 .apiRequest (retriedRequest c a)] },
              match srv.adapter (retriedRequest c a) with
              | .ok reply =>
                .resolved { status := reply.status, data := reply.data, config := retriedRequest c a }
              | .error reply =>
                .rejected (.axiosError { config := some (retriedRequest c a), response := reply }))
      ∧ (b.localStorage.setItem "access_token" a).getItem "access_token" = some a
      ∧ (retriedRequest c a).headers.Authorization = some ("Bearer " ++ a) := by
  refine ⟨?_, getItem_setItem_same _ _ _, rfl⟩
  have ht : truthy (some r) = true := (truthy_some r).2 hne
  unfold responseErrorInterceptor
  simp only [h401, hc, hretry, hr, ht, jsString, hok, if_true, Bool.not_false]
  show api srv (n + 1) _ (retriedRequest c a) = _
  unfold api
  simp only [requestInterceptor_retriedRequest]
  cases hreply : srv.adapter (retriedRequest c a) with
  | ok reply => simp
  | error reply =>
    simp only [List.append_assoc, List.singleton_append]
    rw [responseErrorInterceptor_of_retry _ _ _ _ (retriedRequest c a) rfl rfl]

/-- Witness of C1: the stored token `r1` is exchanged for `new` and the
retried request is answered. -/
theorem refresh_then_retry_witness :
    responseErrorInterceptor (api demoBackend 1) demoBackend demoBrowser demoError =
        some ({ localStorage := demoBrowser.localStorage.setItem "access_token" "new"
                href := demoBrowser.href
                log := demoBrowser.log ++
                  [.refreshPost (API_BASE_URL demoBackend ++ "/auth/refresh/") "r1",
                   .apiRequest (retriedRequest demoConfig "new")] },
              match demoBackend.adapter (retriedRequest demoConfig "new") with
              | .ok reply =>
                .resolved { status := reply.status, data := reply.data,
                            config := retriedRequest demoConfig "new" }
              | .error reply =>
                .rejected (.axiosError { config := some (retriedRequest demoConfig "new"),
                                         response := reply }))
      ∧ (demoBrowser.localStorage.setItem "access_token" "new").getItem "access_token" = some "new"
      ∧ (retriedRequest demoConfig "new").headers.Authorization = some ("Bearer " ++ "new") :=
  refresh_then_retry demoBackend 0 demoBrowser demoError demoConfig "r1" "new"
    (by decide) rfl rfl (by decide) (by decide) rfl

/-- C2: on a 401 for a request not yet marked `_retry`, with a refresh token
stored, a failing refresh call removes `access_token`, `refresh_token` and
`user` from the store (other keys stay), sets `window.location.href` to
`/login`, sends nothing but the one refresh call, and rejects with the
error. -/
theorem refresh_failure_clears_credentials
    (apiCall : Browser → RequestConfig → Option (Browser × Settled))
    (srv : Backend) (b : Browser) (error : AxiosError) (c : RequestConfig) (r : String)
    (h401 : error.response.map (·.status) = some 401)
    (hc : error.config = some c) (hretry : c._retry = false)
    (hr : b.localStorage.getItem "refresh_token" = some r) (hne : r ≠ "")
    (hfail : srv.refresh r = .error ()) :
    ∃ b', responseErrorInterceptor apiCall srv b error =
        some (b', .rejected (.axiosError { error with config := some { c with _retry := true } }))
      ∧ b'.localStorage.getItem "access_token" = none
      ∧ b'.localStorage.getItem "refresh_token" = none
      ∧ b'.localStorage.getItem "user" = none
      ∧ (∀ k, k ≠ "access_token" → k ≠ "refresh_token" → k ≠ "user" →
          b'.localStorage.getItem k = b.localStorage.getItem k)
      ∧ b'.href = "/login"
      ∧ b'.log = b.log ++ [.refreshPost (API_BASE_URL srv ++ "/auth/refresh/") r] := by
  have ht : truthy (some r) = true := (truthy_some r).2 hne
  refine ⟨refreshFailed { b with log := b.log ++
      [.refreshPost (API_BASE_URL srv ++ "/auth/refresh/") r] }, ?_, ?_, ?_, ?_, ?_, rfl, rfl⟩
  · unfold responseErrorInterceptor
    simp only [h401, hc, hretry, hr, ht, jsString, hfail, if_true, Bool.not_false]
  · simp [refreshFailed, LocalStorage.getItem, LocalStorage.removeItem]
  · simp [refreshFailed, LocalStorage.getItem, LocalStorage.removeItem]
  · simp [refreshFailed, LocalStorage.getItem, LocalStorage.removeItem]
  · intro k h1 h2 h3
    simp [refreshFailed, LocalStorage.getItem, LocalStorage.removeItem, h1, h2, h3]

/-- Witness of C2: with a backend that rejects the refresh token the session
is wiped. -/
theorem refresh_failure_clears_credentials_witness :
    ∃ b', responseErrorInterceptor (api expiredBackend 1) expiredBackend demoBrowser demoError =
        some (b', .rejected (.axiosError
          { demoError with config := some { demoConfig with _retry := true } }))
      ∧ b'.localStorage.getItem "access_token" = none
      ∧ b'.localStorage.getItem "refresh_token" = none
      ∧ b'.localStorage.getItem "user" = none
      ∧ (∀ k, k ≠ "access_token" → k ≠ "refresh_token" → k ≠ "user" →
          b'.localStorage.getItem k = demoBrowser.localStorage.getItem k)
      ∧ b'.href = "/login"
      ∧ b'.log = demoBrowser.log ++
          [.refreshPost (API_BASE_URL expiredBackend ++ "/auth/refresh/") "r1"] :=
  refresh_failure_clears_credentials (api expiredBackend 1) expiredBackend demoBrowser demoError
    demoConfig "r1" (by decide) rfl rfl (by decide) (by decide) rfl

/-- C3: a 401 for a request whose config is already marked `_retry` is
rejected with that very error, with the browser state (store, location and
network log) untouched, so neither a refresh call nor a re-sent request is
made; and every call of `api` settles after at most one refresh call and at
most two requests sent (the original and one retry). -/
theorem no_second_retry (srv : Backend) :
    (∀ (apiCall : Browser → RequestConfig → Option (Browser × Settled)) (b : Browser)
        (error : AxiosError) (c : RequestConfig),
        error.response.map (·.status) = some 401 → error.config = some c → c._retry = true →
        responseErrorInterceptor apiCall srv b error = some (b, .rejected (.axiosError error)))
      ∧ (∀ (n : Nat) (b : Browser) (config : RequestConfig),
        ∃ b' result calls, api srv (n + 2) b config = some (b', result)
          ∧ b'.log = b.log ++ calls ∧ refreshCalls calls ≤ 1 ∧ apiRequests calls ≤ 2) := by
  refine ⟨fun apiCall b error c _ hc hr => responseErrorInterceptor_of_retry apiCall srv b error c hc hr, ?_⟩
  intro n b config
  rw [api_succ]
  cases hreply : srv.adapter (requestInterceptor b.localStorage config) with
  | ok reply =>
    exact ⟨_, _, [_], rfl, rfl, by simp [refreshCalls], by simp [apiRequests]⟩
  | error reply =>
    obtain ⟨b', result, calls, hres, hlog, h1, h2⟩ := responseErrorInterceptor_calls srv n
      { b with log := b.log ++ [.apiRequest (requestInterceptor b.localStorage config)] }
      { config := some (requestInterceptor b.localStorage config), response := reply }
    refine ⟨b', result, .apiRequest (requestInterceptor b.localStorage config) :: calls,
      hres, ?_, ?_, ?_⟩
    · rw [hlog]; simp
    · simpa [refreshCalls] using h1
    · simp only [apiRequests]; omega

/-- Witness of C3: a second 401 on the retried request changes nothing. -/
theorem no_second_retry_witness :
    responseErrorInterceptor (api demoBackend 1) demoBackend demoBrowser retriedError =
      some (demoBrowser, .rejected (.axiosError retriedError)) :=
  (no_second_retry demoBackend).1 (api demoBackend 1) demoBrowser retriedError
    { demoConfig with _retry := true } (by decide) rfl rfl

/-- C4: the request interceptor sets `Authorization` to `Bearer t` when the
store holds a non-empty `access_token` value `t` (the rest of the config is
kept), and returns the config unchanged when no access token is stored. -/
theorem requestInterceptor_attaches_token (ls : LocalStorage) (config : RequestConfig) :
    (∀ t, ls.getItem "access_token" = some t → t ≠ "" →
        requestInterceptor ls config =
          { config with headers := { config.headers with Authorization := some ("Bearer " ++ t) } })
      ∧ (ls.getItem "access_token" = none → requestInterceptor ls config = config) := by
  constructor
  · intro t ht hne
    unfold requestInterceptor
    simp [ht, truthy, hne, jsString]
  · intro hnone
    unfold requestInterceptor
    simp [hnone, truthy]

/-- Witness of C4: with the token `old` stored the header becomes
`Bearer old`. -/
theorem requestInterceptor_attaches_token_witness :
    requestInterceptor demoStorage { demoConfig with headers := { demoConfig.headers with Authorization := none } } =
      { demoConfig with headers := { demoConfig.headers with Authorization := some ("Bearer " ++ "old") } } :=
  (requestInterceptor_attaches_token demoStorage
    { demoConfig with headers := { demoConfig.headers with Authorization := none } }).1 "old"
    (by decide) (by decide)

/-! ## Role-based route gating -/

/-- C5: `ProtectedRoute` renders its child subtree exactly when `loading` is
false, `user` is not null and `user.role` is `staff` or `admin`. -/
theorem ProtectedRoute_outlet_iff (auth : AuthState) (location : Location) :
    ProtectedRoute auth location = .Outlet ↔
      auth.loading = false ∧ ∃ u, auth.user = some u ∧ (u.role = "staff" ∨ u.role = "admin") := by
  obtain ⟨user, loading⟩ := auth
  cases loading
  · cases user with
    | none => simp [ProtectedRoute]
    | some u =>
      by_cases h : isStaff (some u) = true
      · simpa [ProtectedRoute, h] using (isStaff_some u).1 h
      · have h' : ¬ (u.role = "staff" ∨ u.role = "admin") := fun hh => h ((isStaff_some u).2 hh)
        simpa [ProtectedRoute, h] using h'
  · simp [ProtectedRoute]

/-- C6: `AdminRoute` renders its child subtree exactly when `loading` is
false, `user` is not null and `user.role` is `admin`. -/
theorem AdminRoute_outlet_iff (auth : AuthState) (location : Location) :
    AdminRoute auth location = .Outlet ↔
      auth.loading = false ∧ ∃ u, auth.user = some u ∧ u.role = "admin" := by
  obtain ⟨user, loading⟩ := auth
  cases loading
  · cases user with
    | none => simp [AdminRoute]
    | some u =>
      by_cases h : isAdmin (some u) = true
      · simpa [AdminRoute, h] using (isAdmin_some u).1 h
      · have h' : ¬ u.role = "admin" := fun hh => h ((isAdmin_some u).2 hh)
        simpa [AdminRoute, h] using h'
  · simp [AdminRoute]

/-- C7: with `loading` false and `user` null, both guards render, at every
location, a redirect to `/login` whose state carries that location as
`from`. -/
theorem guards_redirect_anonymous_to_login (location : Location) :
    ProtectedRoute { user := none, loading := false } location =
        .Navigate "/login" (some { from_ := location }) true
      ∧ AdminRoute { user := none, loading := false } location =
        .Navigate "/login" (some { from_ := location }) true :=
  ⟨rfl, rfl⟩

/-- C8: for a signed-in user whose role is not `admin`, `AdminRoute` with
`loading` false redirects to `/dashboard`, which is not a redirect to
`/login`. -/
theorem AdminRoute_redirects_non_admin_to_dashboard (u : User) (location : Location)
    (h : u.role ≠ "admin") :
    AdminRoute { user := some u, loading := false } location = .Navigate "/dashboard" none true
      ∧ ∀ state replace, AdminRoute { user := some u, loading := false } location ≠
          .Navigate "/login" state replace := by
  have hA : isAdmin (some u) = false := by
    simpa [isAdmin, hasRole] using h
  have hE : AdminRoute { user := some u, loading := false } location =
      .Navigate "/dashboard" none true := by
    simp [AdminRoute, hA]
  refine ⟨hE, fun state replace => ?_⟩
  rw [hE]
  simp

/-- Witness of C8: a customer opening the admin user list is sent to
`/dashboard`. -/
theorem AdminRoute_redirects_non_admin_to_dashboard_witness :
    AdminRoute { user := some customer, loading := false } adminUsersLocation =
        .Navigate "/dashboard" none true
      ∧ ∀ state replace, AdminRoute { user := some customer, loading := false } adminUsersLocation ≠
          .Navigate "/login" state replace :=
  AdminRoute_redirects_non_admin_to_dashboard customer adminUsersLocation (by decide)

/-- C9 as stated fails: a customer rejected by `AdminRoute` is redirected to
`/dashboard`, a route guarded by `ProtectedRoute`, which does not admit the
customer but redirects once more. -/
theorem admin_guard_sends_customer_to_rejecting_route :
    ¬ (∀ (g : Guard) (u : User) (location : Location) (target : String)
        (state : Option NavigateState) (replace : Bool),
        g.render { user := some u, loading := false } location = .Navigate target state replace →
        admitted { user := some u, loading := false } target = true) := by
  intro h
  have := h .AdminRoute customer adminUsersLocation "/dashboard" none true (by decide)
  exact absurd this (by decide)

/-- C9 amended: a signed-in user rejected by `ProtectedRoute`, or a user of
role `staff` rejected by `AdminRoute`, is redirected to a route of the table
that admits this user; a user of any other role rejected by `AdminRoute` is
redirected to `/dashboard`, where `ProtectedRoute` redirects the user once
more, to `/`, which admits the user. -/
theorem guard_redirect_target (g : Guard) (u : User) (location : Location) (target : String)
    (state : Option NavigateState) (replace : Bool)
    (h : g.render { user := some u, loading := false } location = .Navigate target state replace) :
    ((g = .ProtectedRoute ∨ u.role = "staff") →
        admitted { user := some u, loading := false } target = true)
      ∧ (g = .AdminRoute → u.role ≠ "staff" →
        target = "/dashboard"
          ∧ admitted { user := some u, loading := false } target = false
          ∧ App { user := some u, loading := false } { pathname := target, search := "", hash := "" } =
              .Navigate "/" none true
          ∧ admitted { user := some u, loading := false } "/" = true) := by
  cases g with
  | ProtectedRoute =>
    have ht : target = "/" := by
      by_cases hs : isStaff (some u) = true
      · simp [Guard.render, ProtectedRoute, hs] at h
      · simp [Guard.render, ProtectedRoute, hs] at h
        exact h.1.symm
    subst ht
    exact ⟨fun _ => admitted_root _, fun hg => by cases hg⟩
  | AdminRoute =>
    have hna : isAdmin (some u) = false ∧ target = "/dashboard" := by
      by_cases ha : isAdmin (some u) = true
      · simp [Guard.render, AdminRoute, ha] at h
      · simp [Guard.render, AdminRoute, ha] at h
        exact ⟨by simpa using ha, h.1.symm⟩
    obtain ⟨ha, ht⟩ := hna
    subst ht
    have hrole : u.role ≠ "admin" := fun hh => by
      rw [(isAdmin_some u).2 hh] at ha
      cases ha
    constructor
    · intro hor
      rcases hor with hg | hs
      · cases hg
      · have hst : isStaff (some u) = true := (isStaff_some u).2 (Or.inl hs)
        simp [admitted, App, matchRoute_dashboard, Guard.render, ProtectedRoute, hst, renderPage]
    · intro _ hns
      have hst : isStaff (some u) = false := by
        cases hq : isStaff (some u) with
        | false => rfl
        | true =>
          rcases (isStaff_some u).1 hq with h1 | h1
          · exact absurd h1 hns
          · exact absurd h1 hrole
      refine ⟨rfl, ?_, ?_, admitted_root _⟩
      · simp [admitted, App, matchRoute_dashboard, Guard.render, ProtectedRoute, hst]
      · simp [App, matchRoute_dashboard, Guard.render, ProtectedRoute, hst]

/-- Witness of C9 amended: a staff member rejected by `AdminRoute` lands on
`/dashboard` and is admitted there. -/
theorem guard_redirect_target_witness :
    ((Guard.AdminRoute = .ProtectedRoute ∨ staffUser.role = "staff") →
        admitted { user := some staffUser, loading := false } "/dashboard" = true)
      ∧ (Guard.AdminRoute = .AdminRoute → staffUser.role ≠ "staff" →
        "/dashboard" = "/dashboard"
          ∧ admitted { user := some staffUser, loading := false } "/dashboard" = false
          ∧ App { user := some staffUser, loading := false }
              { pathname := "/dashboard", search := "", hash := "" } = .Navigate "/" none true
          ∧ admitted { user := some staffUser, loading := false } "/" = true) :=
  guard_redirect_target .AdminRoute staffUser adminUsersLocation "/dashboard" none true (by decide)

/-- C10: while `loading` is true both guards render the loading spinner,
whatever `user` is, hence neither a redirect nor the child subtree. -/
theorem guards_show_spinner_while_loading (user : Option User) (location : Location) :
    ProtectedRoute { user := user, loading := true } location = .LoadingSpinner "lg"
      ∧ AdminRoute { user := user, loading := true } location = .LoadingSpinner "lg"
      ∧ ProtectedRoute { user := user, loading := true } location ≠ .Outlet
      ∧ AdminRoute { user := user, loading := true } location ≠ .Outlet
      ∧ (∀ target state replace,
          ProtectedRoute { user := user, loading := true } location ≠ .Navigate target state replace
          ∧ AdminRoute { user := user, loading := true } location ≠ .Navigate target state replace) := by
  have hP : ProtectedRoute { user := user, loading := true } location = .LoadingSpinner "lg" := rfl
  have hA : AdminRoute { user := user, loading := true } location = .LoadingSpinner "lg" := rfl
  refine ⟨hP, hA, ?_, ?_, fun target state replace => ⟨?_, ?_⟩⟩ <;> simp [hP, hA]

/-! ## Lemmas on the auth context -/

theorem getItem_clearCredentials (ls : LocalStorage) :
    (clearCredentials ls).getItem "access_token" = none
      ∧ (clearCredentials ls).getItem "refresh_token" = none
      ∧ (clearCredentials ls).getItem "user" = none
      ∧ ∀ k, k ≠ "access_token" → k ≠ "refresh_token" → k ≠ "user" →
          (clearCredentials ls).getItem k = ls.getItem k := by
  refine ⟨?_, ?_, ?_, ?_⟩
  · simp [clearCredentials, LocalStorage.getItem, LocalStorage.removeItem]
  · simp [clearCredentials, LocalStorage.getItem, LocalStorage.removeItem]
  · simp [clearCredentials, LocalStorage.getItem, LocalStorage.removeItem]
  · intro k h1 h2 h3
    simp [clearCredentials, LocalStorage.getItem, LocalStorage.removeItem, h1, h2, h3]

/-- Without a stored token or a stored user `initAuth` only ends the loading
phase. -/
theorem initAuth_no_session (svc : Services) (s : AuthProvider)
    (h : ¬ (truthy (s.browser.localStorage.getItem "access_token") = true
      ∧ truthy (s.browser.localStorage.getItem "user") = true)) :
    initAuth svc s = { s with loading := false, effects := s.effects ++ [.setLoading false] } := by
  have h' : (truthy (s.browser.localStorage.getItem "access_token")
      && truthy (s.browser.localStorage.getItem "user")) = false := by
    cases h1 : truthy (s.browser.localStorage.getItem "access_token") <;>
    cases h2 : truthy (s.browser.localStorage.getItem "user") <;> simp_all
  unfold initAuth
  simp only [h']
  rfl

/-- With a stored token and user and a successful `getMe`, `initAuth` takes
the answer as the user and stores it. -/
theorem initAuth_ok (svc : Services) (s : AuthProvider) (b : Browser) (d : User)
    (ht : truthy (s.browser.localStorage.getItem "access_token") = true)
    (hu : truthy (s.browser.localStorage.getItem "user") = true)
    (hok : svc.getMe s.browser = (b, .ok d)) :
    initAuth svc s =
      { s with
        user := some d
        loading := false
        browser := { b with localStorage := b.localStorage.setItem "user" (svc.stringify d) }
        effects := s.effects ++
          [.request "userAPI.getMe", .settled "userAPI.getMe" true, .setUser (some d),
           .setLoading false] } := by
  unfold initAuth
  simp only [ht, hu, Bool.and_self, if_true, hok, List.append_assoc, List.cons_append,
    List.nil_append]

/-- With a stored token and user and a failing `getMe`, `initAuth` clears the
session. -/
theorem initAuth_error (svc : Services) (s : AuthProvider) (b : Browser) (e : ApiError)
    (ht : truthy (s.browser.localStorage.getItem "access_token") = true)
    (hu : truthy (s.browser.localStorage.getItem "user") = true)
    (herr : svc.getMe s.browser = (b, .error e)) :
    initAuth svc s =
      { s with
        user := none
        loading := false
        browser := { b with localStorage := clearCredentials b.localStorage }
        effects := s.effects ++
          [.request "userAPI.getMe", .settled "userAPI.getMe" false, .setUser none,
           .setLoading false] } := by
  unfold initAuth
  simp only [ht, hu, Bool.and_self, if_true, herr, List.append_assoc, List.cons_append,
    List.nil_append]

/-- A successful login call, as an equation: the three entries are stored, the
user is set and the router goes to the landing path of the role. -/
theorem login_ok (svc : Services) (email password : String) (s : AuthProvider) (b : Browser)
    (d : LoginData) (hok : svc.login email password s.browser = (b, .ok d)) :
    login svc email password s =
      ({ user := some d.user
         loading := s.loading
         browser := { b with
           localStorage :=
             ((b.localStorage.setItem "access_token" d.access).setItem "refresh_token"
               d.refresh).setItem "user" (svc.stringify d.user) }
         location :=
           { pathname :=
               if d.user.role = "admin" then "/admin"
               else if d.user.role = "staff" then "/dashboard" else "/"
             search := "", hash := "" }
         locationState := none
         effects := s.effects ++
           [.request "authAPI.login", .settled "authAPI.login" true, .setUser (some d.user),
            .toastSuccess "Login successful!",
            .navigate (if d.user.role = "admin" then "/admin"
              else if d.user.role = "staff" then "/dashboard" else "/")] },
       { success := true, error := none }) := by
  unfold login
  simp only [hok]
  by_cases h1 : d.user.role = "admin"
  · simp [h1, navigate]
  · by_cases h2 : d.user.role = "staff"
    · simp [h2, navigate]
    · simp [h1, h2, navigate]

/-- A rejected login call only adds the error notification. -/
theorem login_error (svc : Services) (email password : String) (s : AuthProvider) (b : Browser)
    (e : ApiError) (herr : svc.login email password s.browser = (b, .error e)) :
    login svc email password s =
      ({ s with
         browser := b
         effects := s.effects ++
           [.request "authAPI.login", .settled "authAPI.login" false,
            .toastError (jsOr e.detail "Login failed. Please check your credentials.")] },
       { success := false
         error := some (jsOr e.detail "Login failed. Please check your credentials.") }) := by
  unfold login
  simp only [herr, List.append_assoc, List.cons_append, List.nil_append]

/-- After `logout` the three credential keys are gone. -/
theorem logout_localStorage (svc : Services) (s : AuthProvider) :
    (logout svc s).browser.localStorage.getItem "access_token" = none
      ∧ (logout svc s).browser.localStorage.getItem "refresh_token" = none
      ∧ (logout svc s).browser.localStorage.getItem "user" = none := by
  have key : ∀ t : AuthProvider,
      (navigate "/login"
        { t with
          browser := { t.browser with localStorage := clearCredentials t.browser.localStorage }
          user := none
          effects := t.effects ++ [.setUser none, .toastSuccess "Logged out successfully"] }
        ).browser.localStorage = clearCredentials t.browser.localStorage := fun _ => rfl
  unfold logout
  simp only [key]
  exact ⟨(getItem_clearCredentials _).1, (getItem_clearCredentials _).2.1,
    (getItem_clearCredentials _).2.2.1⟩

/-- A failing refresh call, as an equation. -/
theorem responseErrorInterceptor_refresh_error
    (apiCall : Browser → RequestConfig → Option (Browser × Settled))
    (srv : Backend) (b : Browser) (error : AxiosError) (c : RequestConfig) (r : String)
    (h401 : error.response.map (·.status) = some 401)
    (hc : error.config = some c) (hretry : c._retry = false)
    (hr : b.localStorage.getItem "refresh_token" = some r) (hne : r ≠ "")
    (hfail : srv.refresh r = .error ()) :
    responseErrorInterceptor apiCall srv b error =
      some (refreshFailed { b with log := b.log ++
              [.refreshPost (API_BASE_URL srv ++ "/auth/refresh/") r] },
            .rejected (.axiosError { error with config := some { c with _retry := true } })) := by
  have ht : truthy (some r) = true := (truthy_some r).2 hne
  unfold responseErrorInterceptor
  simp only [h401, hc, hretry, hr, ht, jsString, hfail, if_true, Bool.not_false]

/-! ## The local auth cache -/

/-- C11: `initAuth` ends with `loading` false on every path, and the effect
`setLoading(false)` is the last one: without a stored session it is the only
effect, and with a stored token and user it comes after the `getMe` call has
settled, whether that call succeeds or fails. -/
theorem initAuth_ends_loading (svc : Services) (s : AuthProvider) :
    (initAuth svc s).loading = false
      ∧ (¬ (truthy (s.browser.localStorage.getItem "access_token") = true
            ∧ truthy (s.browser.localStorage.getItem "user") = true) →
          (initAuth svc s).effects = s.effects ++ [.setLoading false])
      ∧ (truthy (s.browser.localStorage.getItem "access_token") = true →
          truthy (s.browser.localStorage.getItem "user") = true →
          (∀ b d, svc.getMe s.browser = (b, .ok d) →
            (initAuth svc s).effects = s.effects ++
              [.request "userAPI.getMe", .settled "userAPI.getMe" true, .setUser (some d),
               .setLoading false])
          ∧ (∀ b e, svc.getMe s.browser = (b, .error e) →
            (initAuth svc s).effects = s.effects ++
              [.request "userAPI.getMe", .settled "userAPI.getMe" false, .setUser none,
               .setLoading false])) := by
  refine ⟨?_, ?_, ?_⟩
  · unfold initAuth
    rfl
  · intro h
    rw [initAuth_no_session svc s h]
  · intro ht hu
    refine ⟨fun b d hok => ?_, fun b e herr => ?_⟩
    · rw [initAuth_ok svc s b d ht hu hok]
    · rw [initAuth_error svc s b e ht hu herr]

/-- Witness of C11: with a stored session and a successful `getMe`, loading
ends after the call has settled. -/
theorem initAuth_ends_loading_witness :
    (initAuth demoServices demoProvider).effects = demoProvider.effects ++
      [.request "userAPI.getMe", .settled "userAPI.getMe" true, .setUser (some staffUser),
       .setLoading false] :=
  ((initAuth_ends_loading demoServices demoProvider).2.2 (by decide) (by decide)).1
    demoBrowser staffUser rfl

/-- C12: with `access_token` and `user` stored and `getMe` answering with `d`,
the user state becomes `d`, the entry `user` becomes `JSON.stringify(d)`, and
`initAuth` writes no other entry: every other key reads as the call left it,
so the tokens are unchanged when the call did not touch the store. -/
theorem initAuth_success (svc : Services) (s : AuthProvider) (b : Browser) (d : User)
    (ht : truthy (s.browser.localStorage.getItem "access_token") = true)
    (hu : truthy (s.browser.localStorage.getItem "user") = true)
    (hok : svc.getMe s.browser = (b, .ok d)) :
    (initAuth svc s).user = some d
      ∧ (initAuth svc s).browser.localStorage.getItem "user" = some (svc.stringify d)
      ∧ (∀ k, k ≠ "user" →
          (initAuth svc s).browser.localStorage.getItem k = b.localStorage.getItem k)
      ∧ (b.localStorage = s.browser.localStorage →
          (initAuth svc s).browser.localStorage.getItem "access_token" =
              s.browser.localStorage.getItem "access_token"
            ∧ (initAuth svc s).browser.localStorage.getItem "refresh_token" =
              s.browser.localStorage.getItem "refresh_token") := by
  rw [initAuth_ok svc s b d ht hu hok]
  refine ⟨rfl, getItem_setItem_same _ _ _, fun k hk => getItem_setItem_other _ _ _ _ hk, ?_⟩
  intro hb
  constructor
  · show (b.localStorage.setItem "user" (svc.stringify d)).getItem "access_token" = _
    rw [getItem_setItem_other _ _ _ _ (by decide), hb]
  · show (b.localStorage.setItem "user" (svc.stringify d)).getItem "refresh_token" = _
    rw [getItem_setItem_other _ _ _ _ (by decide), hb]

/-- Witness of C12: the stored session of `demoBrowser` is revalidated as
`staffUser`. -/
theorem initAuth_success_witness :
    (initAuth demoServices demoProvider).user = some staffUser
      ∧ (initAuth demoServices demoProvider).browser.localStorage.getItem "user" =
          some (demoServices.stringify staffUser)
      ∧ (∀ k, k ≠ "user" →
          (initAuth demoServices demoProvider).browser.localStorage.getItem k =
            demoBrowser.localStorage.getItem k)
      ∧ (demoBrowser.localStorage = demoProvider.browser.localStorage →
          (initAuth demoServices demoProvider).browser.localStorage.getItem "access_token" =
              demoProvider.browser.localStorage.getItem "access_token"
            ∧ (initAuth demoServices demoProvider).browser.localStorage.getItem "refresh_token" =
              demoProvider.browser.localStorage.getItem "refresh_token") :=
  initAuth_success demoServices demoProvider demoBrowser staffUser (by decide) (by decide) rfl

/-- C13: with `access_token` and `user` stored and `getMe` failing,
`access_token`, `refresh_token` and `user` are removed from the store and the
user state is null. -/
theorem initAuth_failure (svc : Services) (s : AuthProvider) (b : Browser) (e : ApiError)
    (ht : truthy (s.browser.localStorage.getItem "access_token") = true)
    (hu : truthy (s.browser.localStorage.getItem "user") = true)
    (herr : svc.getMe s.browser = (b, .error e)) :
    (initAuth svc s).browser.localStorage.getItem "access_token" = none
      ∧ (initAuth svc s).browser.localStorage.getItem "refresh_token" = none
      ∧ (initAuth svc s).browser.localStorage.getItem "user" = none
      ∧ (initAuth svc s).user = none := by
  rw [initAuth_error svc s b e ht hu herr]
  exact ⟨(getItem_clearCredentials _).1, (getItem_clearCredentials _).2.1,
    (getItem_clearCredentials _).2.2.1, rfl⟩

/-- Witness of C13: a stored session that the server rejects is wiped. -/
theorem initAuth_failure_witness :
    (initAuth failingServices demoProvider).browser.localStorage.getItem "access_token" = none
      ∧ (initAuth failingServices demoProvider).browser.localStorage.getItem "refresh_token" = none
      ∧ (initAuth failingServices demoProvider).browser.localStorage.getItem "user" = none
      ∧ (initAuth failingServices demoProvider).user = none :=
  initAuth_failure failingServices demoProvider demoBrowser { response := none }
    (by decide) (by decide) rfl

/-- C14: after a `login` whose call answers with `access`, `refresh` and
`user`, the store holds them under `access_token`, `refresh_token` and (as
`JSON.stringify(user)`) `user`, the user state is `user` and the result is
`{ success: true }`. The other code paths use the same three keys: the request
interceptor attaches the stored `access`, the refresh flow posts the stored
`refresh` and on failure removes the three entries, `initAuth` finds the
session and calls `getMe`, and `logout` removes the three entries. -/
theorem login_success (svc : Services) (email password : String) (s : AuthProvider)
    (b : Browser) (d : LoginData) (hok : svc.login email password s.browser = (b, .ok d)) :
    ((login svc email password s).1.browser.localStorage.getItem "access_token" = some d.access
        ∧ (login svc email password s).1.browser.localStorage.getItem "refresh_token" =
            some d.refresh
        ∧ (login svc email password s).1.browser.localStorage.getItem "user" =
            some (svc.stringify d.user)
        ∧ (login svc email password s).1.user = some d.user
        ∧ (login svc email password s).2 = { success := true, error := none })
      ∧ (∀ config, d.access ≠ "" →
          (requestInterceptor (login svc email password s).1.browser.localStorage
            config).headers.Authorization = some ("Bearer " ++ d.access))
      ∧ (∀ (apiCall : Browser → RequestConfig → Option (Browser × Settled)) (srv : Backend)
          (error : AxiosError) (c : RequestConfig),
          error.response.map (·.status) = some 401 → error.config = some c → c._retry = false →
          d.refresh ≠ "" → srv.refresh d.refresh = .error () →
          ∃ b' result,
            responseErrorInterceptor apiCall srv (login svc email password s).1.browser error =
              some (b', result)
            ∧ b'.log = (login svc email password s).1.browser.log ++
                [.refreshPost (API_BASE_URL srv ++ "/auth/refresh/") d.refresh]
            ∧ b'.localStorage.getItem "access_token" = none
            ∧ b'.localStorage.getItem "refresh_token" = none
            ∧ b'.localStorage.getItem "user" = none)
      ∧ (d.access ≠ "" → svc.stringify d.user ≠ "" →
          ∃ rest, (initAuth svc (login svc email password s).1).effects =
            (login svc email password s).1.effects ++ .request "userAPI.getMe" :: rest)
      ∧ ((logout svc (login svc email password s).1).browser.localStorage.getItem
            "access_token" = none
        ∧ (logout svc (login svc email password s).1).browser.localStorage.getItem
            "refresh_token" = none
        ∧ (logout svc (login svc email password s).1).browser.localStorage.getItem "user" =
            none) := by
  have ha : (login svc email password s).1.browser.localStorage.getItem "access_token" =
      some d.access := by
    rw [login_ok svc email password s b d hok]
    simp [LocalStorage.getItem, LocalStorage.setItem]
  have hr : (login svc email password s).1.browser.localStorage.getItem "refresh_token" =
      some d.refresh := by
    rw [login_ok svc email password s b d hok]
    simp [LocalStorage.getItem, LocalStorage.setItem]
  have hu : (login svc email password s).1.browser.localStorage.getItem "user" =
      some (svc.stringify d.user) := by
    rw [login_ok svc email password s b d hok]
    simp [LocalStorage.getItem, LocalStorage.setItem]
  refine ⟨⟨ha, hr, hu, ?_, ?_⟩, ?_, ?_, ?_, logout_localStorage svc _⟩
  · rw [login_ok svc email password s b d hok]
  · rw [login_ok svc email password s b d hok]
  · intro config hne
    unfold requestInterceptor
    simp [ha, truthy, hne, jsString]
  · intro apiCall srv error c h401 hc hretry hne hfail
    refine ⟨_, _, responseErrorInterceptor_refresh_error apiCall srv _ error c d.refresh h401 hc
      hretry hr hne hfail, rfl, ?_, ?_, ?_⟩
    · simp [refreshFailed, LocalStorage.getItem, LocalStorage.removeItem]
    · simp [refreshFailed, LocalStorage.getItem, LocalStorage.removeItem]
    · simp [refreshFailed, LocalStorage.getItem, LocalStorage.removeItem]
  · intro hne hsne
    have ht : truthy ((login svc email password s).1.browser.localStorage.getItem
        "access_token") = true := by
      rw [ha]; exact (truthy_some _).2 hne
    have hs : truthy ((login svc email password s).1.browser.localStorage.getItem "user") =
        true := by
      rw [hu]; exact (truthy_some _).2 hsne
    cases hget : svc.getMe (login svc email password s).1.browser with
    | mk b1 r =>
      cases r with
      | ok u =>
        exact ⟨_, by rw [initAuth_ok svc _ b1 u ht hs hget]⟩
      | error e =>
        exact ⟨_, by rw [initAuth_error svc _ b1 e ht hs hget]⟩

/-- Witness of C14: a staff member signs in on an empty store. -/
theorem login_success_witness :
    (login demoServices "sam@example.com" "secret" freshProvider).1.browser.localStorage.getItem
        "access_token" = some "a1"
      ∧ (login demoServices "sam@example.com" "secret" freshProvider).1.browser.localStorage.getItem
        "refresh_token" = some "r1"
      ∧ (login demoServices "sam@example.com" "secret" freshProvider).1.browser.localStorage.getItem
        "user" = some (demoStringify staffUser)
      ∧ (login demoServices "sam@example.com" "secret" freshProvider).1.user = some staffUser
      ∧ (login demoServices "sam@example.com" "secret" freshProvider).2 =
        { success := true, error := none } :=
  (login_success demoServices "sam@example.com" "secret" freshProvider freshProvider.browser
    { access := "a1", refresh := "r1", user := staffUser } rfl).1

/-! ## Page handlers -/

/-- C15: for every payload, `onSubmit` of the contact form shows the success
notification and resets the form exactly when `submitContact` resolves; when
it rejects, the error notification is shown and the form keeps its values; in
both cases `loading` ends false. -/
theorem Contact_onSubmit_outcome (svc : Services) (data : List (String × String))
    (s : ContactState) :
    (Contact.onSubmit svc data s).loading = false
      ∧ (∀ r, svc.submitContact data = .ok r →
          (Contact.onSubmit svc data s).values = []
          ∧ (Contact.onSubmit svc data s).effects = s.effects ++
              [.setLoading true, .request "analyticsAPI.submitContact",
               .settled "analyticsAPI.submitContact" true,
               .toastSuccess "Message sent successfully! We will get back to you soon.",
               .reset, .setLoading false])
      ∧ (∀ e, svc.submitContact data = .error e →
          (Contact.onSubmit svc data s).values = s.values
          ∧ (Contact.onSubmit svc data s).effects = s.effects ++
              [.setLoading true, .request "analyticsAPI.submitContact",
               .settled "analyticsAPI.submitContact" false,
               .consoleError "Error submitting contact form:",
               .toastError "Failed to send message. Please try again.",
               .setLoading false])
      ∧ ((∃ r, svc.submitContact data = .ok r) ↔
          Effect.reset ∈ (Contact.onSubmit svc data s).effects.drop s.effects.length)
      ∧ ((∃ r, svc.submitContact data = .ok r) ↔
          Effect.toastSuccess "Message sent successfully! We will get back to you soon." ∈
            (Contact.onSubmit svc data s).effects.drop s.effects.length) := by
  have hok : ∀ r, svc.submitContact data = .ok r →
      (Contact.onSubmit svc data s).values = []
      ∧ (Contact.onSubmit svc data s).effects = s.effects ++
          [.setLoading true, .request "analyticsAPI.submitContact",
           .settled "analyticsAPI.submitContact" true,
           .toastSuccess "Message sent successfully! We will get back to you soon.",
           .reset, .setLoading false] := by
    intro r hr
    unfold Contact.onSubmit
    simp [hr]
  have herr : ∀ e, svc.submitContact data = .error e →
      (Contact.onSubmit svc data s).values = s.values
      ∧ (Contact.onSubmit svc data s).effects = s.effects ++
          [.setLoading true, .request "analyticsAPI.submitContact",
           .settled "analyticsAPI.submitContact" false,
           .consoleError "Error submitting contact form:",
           .toastError "Failed to send message. Please try again.",
           .setLoading false] := by
    intro e he
    unfold Contact.onSubmit
    simp [he]
  refine ⟨?_, hok, herr, ?_, ?_⟩
  · unfold Contact.onSubmit
    rfl
  · cases hres : svc.submitContact data with
    | ok r =>
      rw [(hok r hres).2]
      simp
    | error e =>
      rw [(herr e hres).2]
      simp
  · cases hres : svc.submitContact data with
    | ok r =>
      rw [(hok r hres).2]
      simp
    | error e =>
      rw [(herr e hres).2]
      simp

/-- Witness of C15: a submission the server accepts clears the form. -/
theorem Contact_onSubmit_outcome_witness :
    (Contact.onSubmit demoServices demoContact.values demoContact).values = []
      ∧ (Contact.onSubmit demoServices demoContact.values demoContact).effects =
          demoContact.effects ++
            [.setLoading true, .request "analyticsAPI.submitContact",
             .settled "analyticsAPI.submitContact" true,
             .toastSuccess "Message sent successfully! We will get back to you soon.",
             .reset, .setLoading false] :=
  (Contact_onSubmit_outcome demoServices demoContact.values demoContact).2.1 () rfl

/-- C16: when the API call of a list-mutating admin handler rejects, the list
state after the handler is the list state before it and an error notification
is shown; this holds for `handleDelete` and `handleRoleChange` of Users,
`handleDelete`, `handleStatusChange` and `handleToggleFeatured` of Blogs, and
`handleMarkReplied` and `handleDelete` of Contacts. -/
theorem admin_handlers_keep_list_on_failure (svc : Services) :
    (∀ (render s : AdminUsersState) (id : Nat) (e : ApiError),
        svc.adminDeleteUser id = .error e →
        (AdminUsers.handleDelete svc true render id s).users = s.users
        ∧ (AdminUsers.handleDelete svc true render id s).effects = s.effects ++
            [.consoleError "Error deleting user:",
             .toastError (jsOr e.error "Failed to delete user")])
      ∧ (∀ (render s : AdminUsersState) (userId : Nat) (newRole : String) (e : ApiError),
        svc.adminUpdateUserRole userId newRole = .error e →
        (AdminUsers.handleRoleChange svc render userId newRole s).users = s.users
        ∧ (AdminUsers.handleRoleChange svc render userId newRole s).effects = s.effects ++
            [.consoleError "Error updating role:",
             .toastError (jsOr e.error "Failed to update role")])
      ∧ (∀ (render s : AdminBlogsState) (id : Nat) (e : ApiError),
        svc.adminDeleteBlog id = .error e →
        (AdminBlogs.handleDelete svc true render id s).blogs = s.blogs
        ∧ (AdminBlogs.handleDelete svc true render id s).effects = s.effects ++
            [.toastError "Failed to delete blog"])
      ∧ (∀ (render s : AdminBlogsState) (id : Nat) (status : String) (e : ApiError),
        svc.adminUpdateStatus id status = .error e →
        (AdminBlogs.handleStatusChange svc render id status s).blogs = s.blogs
        ∧ (AdminBlogs.handleStatusChange svc render id status s).effects = s.effects ++
            [.toastError "Failed to update status"])
      ∧ (∀ (render s : AdminBlogsState) (id : Nat) (e : ApiError),
        svc.adminToggleFeatured id = .error e →
        (AdminBlogs.handleToggleFeatured svc render id s).blogs = s.blogs
        ∧ (AdminBlogs.handleToggleFeatured svc render id s).effects = s.effects ++
            [.toastError "Failed to update"])
      ∧ (∀ (render s : AdminContactsState) (id : Nat) (e : ApiError),
        svc.markContactReplied id = .error e →
        (AdminContacts.handleMarkReplied svc render id s).contacts = s.contacts
        ∧ (AdminContacts.handleMarkReplied svc render id s).effects = s.effects ++
            [.toastError "Failed to update"])
      ∧ (∀ (render s : AdminContactsState) (id : Nat) (e : ApiError),
        svc.deleteContact id = .error e →
        (AdminContacts.handleDelete svc true render id s).contacts = s.contacts
        ∧ (AdminContacts.handleDelete svc true render id s).effects = s.effects ++
            [.toastError "Failed to delete"]) := by
  refine ⟨?_, ?_, ?_, ?_, ?_, ?_, ?_⟩
  · intro render s id e h
    simp [AdminUsers.handleDelete, h]
  · intro render s userId newRole e h
    simp [AdminUsers.handleRoleChange, h]
  · intro render s id e h
    simp [AdminBlogs.handleDelete, h]
  · intro render s id status e h
    simp [AdminBlogs.handleStatusChange, h]
  · intro render s id e h
    simp [AdminBlogs.handleToggleFeatured, h]
  · intro render s id e h
    simp [AdminContacts.handleMarkReplied, h]
  · intro render s id e h
    simp [AdminContacts.handleDelete, h]

/-- Witness of C16: a failed role change leaves the user list as it was. -/
theorem admin_handlers_keep_list_on_failure_witness :
    (AdminUsers.handleRoleChange failingServices demoUsers 3 "staff" demoUsers).users =
        demoUsers.users
      ∧ (AdminUsers.handleRoleChange failingServices demoUsers 3 "staff" demoUsers).effects =
          demoUsers.effects ++
            [.consoleError "Error updating role:",
             .toastError (jsOr (ApiError.error { response := none }) "Failed to update role")] :=
  (admin_handlers_keep_list_on_failure failingServices).2.1 demoUsers demoUsers 3 "staff"
    { response := none } rfl

/-- C17: an error whose status is not 401, also one without any response, is
rejected unchanged, and the browser state (store, location, network log) is
left as it was, so no refresh call is made. -/
theorem non_401_passes_through
    (apiCall : Browser → RequestConfig → Option (Browser × Settled))
    (srv : Backend) (b : Browser) (error : AxiosError)
    (h : error.response.map (·.status) ≠ some 401) :
    responseErrorInterceptor apiCall srv b error = some (b, .rejected (.axiosError error)) := by
  unfold responseErrorInterceptor
  simp [h]

/-- Witness of C17: a network failure passes through. -/
theorem non_401_passes_through_witness :
    responseErrorInterceptor (api demoBackend 1) demoBackend demoBrowser networkError =
      some (demoBrowser, .rejected (.axiosError networkError)) :=
  non_401_passes_through (api demoBackend 1) demoBackend demoBrowser networkError (by decide)

/-- C18: two role changes issued from the same render, hence against the
same list `L`, for distinct users `u₁` and `u₂`: once both calls have
succeeded, the list is `L` with the role of `u₂`, whose response came last,
changed and nothing else; the rows of `u₁` are those of `L`, so the earlier
change is not reflected. -/
theorem handleRoleChange_last_response_wins (svc : Services) (render s : AdminUsersState)
    (u₁ u₂ : Nat) (r₁ r₂ : String) (hne : u₁ ≠ u₂)
    (h₁ : svc.adminUpdateUserRole u₁ r₁ = .ok ())
    (h₂ : svc.adminUpdateUserRole u₂ r₂ = .ok ()) :
    (AdminUsers.handleRoleChange svc render u₂ r₂
        (AdminUsers.handleRoleChange svc render u₁ r₁ s)).users =
        render.users.map (fun u => if u.id = u₂ then { u with role := r₂ } else u)
      ∧ (AdminUsers.handleRoleChange svc render u₁ r₁ s).users =
        render.users.map (fun u => if u.id = u₁ then { u with role := r₁ } else u)
      ∧ ((AdminUsers.handleRoleChange svc render u₂ r₂
          (AdminUsers.handleRoleChange svc render u₁ r₁ s)).users.filter (fun u => u.id = u₁) =
        render.users.filter (fun u => u.id = u₁)) := by
  have e₂ : (AdminUsers.handleRoleChange svc render u₂ r₂
      (AdminUsers.handleRoleChange svc render u₁ r₁ s)).users =
      render.users.map (fun u => if u.id = u₂ then { u with role := r₂ } else u) := by
    simp [AdminUsers.handleRoleChange, h₂]
  refine ⟨e₂, by simp [AdminUsers.handleRoleChange, h₁], ?_⟩
  rw [e₂]
  induction render.users with
  | nil => rfl
  | cons u l ih =>
    simp only [List.map_cons, List.filter_cons]
    by_cases hu₂ : u.id = u₂
    · have hu : ¬ u₂ = u₁ := fun h => hne h.symm
      simp [hu₂, hu, ih]
    · simp [hu₂, ih]

/-- Witness of C18: the customer is made staff, then the staff member admin,
both from the same list; only the second change shows. -/
theorem handleRoleChange_last_response_wins_witness :
    (AdminUsers.handleRoleChange demoServices demoUsers 2 "admin"
        (AdminUsers.handleRoleChange demoServices demoUsers 3 "staff" demoUsers)).users =
        demoUsers.users.map (fun u => if u.id = 2 then { u with role := "admin" } else u)
      ∧ (AdminUsers.handleRoleChange demoServices demoUsers 3 "staff" demoUsers).users =
        demoUsers.users.map (fun u => if u.id = 3 then { u with role := "staff" } else u)
      ∧ ((AdminUsers.handleRoleChange demoServices demoUsers 2 "admin"
          (AdminUsers.handleRoleChange demoServices demoUsers 3 "staff" demoUsers)).users.filter
            (fun u => u.id = 3) =
        demoUsers.users.filter (fun u => u.id = 3)) :=
  handleRoleChange_last_response_wins demoServices demoUsers demoUsers 3 2 "staff" "admin"
    (by decide) rfl rfl

/-- C19: after a successful login the router is at `/admin` for role `admin`,
at `/dashboard` for role `staff` and at `/` for every other role, by a single
`navigate` call; the outcome is the same whatever location, and whatever
destination carried in its state, the login page was reached with. -/
theorem login_navigates_by_role (svc : Services) (data : LoginForm) (pageLoading : Bool)
    (s : AuthProvider) (b : Browser) (d : LoginData)
    (hok : svc.login data.email data.password s.browser = (b, .ok d)) :
    (d.user.role = "admin" →
        (Login.onSubmit svc data (pageLoading, s)).2.location.pathname = "/admin")
      ∧ (d.user.role = "staff" →
        (Login.onSubmit svc data (pageLoading, s)).2.location.pathname = "/dashboard")
      ∧ (d.user.role ≠ "admin" → d.user.role ≠ "staff" →
        (Login.onSubmit svc data (pageLoading, s)).2.location.pathname = "/")
      ∧ (Login.onSubmit svc data (pageLoading, s)).2.effects = s.effects ++
          [.request "authAPI.login", .settled "authAPI.login" true, .setUser (some d.user),
           .toastSuccess "Login successful!",
           .navigate (Login.onSubmit svc data (pageLoading, s)).2.location.pathname]
      ∧ (∀ (location : Location) (locationState : Option NavigateState),
          (Login.onSubmit svc data
              (pageLoading, { s with location := location, locationState := locationState })).2.location =
            (Login.onSubmit svc data (pageLoading, s)).2.location
          ∧ (Login.onSubmit svc data
              (pageLoading, { s with location := location, locationState := locationState })).2.locationState =
            (Login.onSubmit svc data (pageLoading, s)).2.locationState
          ∧ (Login.onSubmit svc data
              (pageLoading, { s with location := location, locationState := locationState })).2.effects =
            (Login.onSubmit svc data (pageLoading, s)).2.effects) := by
  have e : ∀ t : AuthProvider, t.browser = s.browser →
      (Login.onSubmit svc data (pageLoading, t)).2 =
        (login svc data.email data.password t).1 := fun _ _ => rfl
  have hs := login_ok svc data.email data.password s b d hok
  refine ⟨?_, ?_, ?_, ?_, ?_⟩
  · intro h
    rw [e s rfl, hs]
    simp [h]
  · intro h
    rw [e s rfl, hs]
    have h' : ¬ d.user.role = "admin" := by rw [h]; decide
    simp [h, h']
  · intro h1 h2
    rw [e s rfl, hs]
    simp [h1, h2]
  · rw [e s rfl, hs]
  · intro location locationState
    have ht := login_ok svc data.email data.password
      { s with location := location, locationState := locationState } b d hok
    have e₁ := e s rfl
    have e₂ := e { s with location := location, locationState := locationState } rfl
    rw [hs] at e₁
    rw [ht] at e₂
    rw [e₁, e₂]
    exact ⟨rfl, rfl, rfl⟩

/-- Witness of C19: a staff member who was sent to the login page from the
admin user list lands on `/dashboard`. -/
theorem login_navigates_by_role_witness :
    (Login.onSubmit demoServices { email := "sam@example.com", password := "secret" }
        (false, demoProvider)).2.location.pathname = "/dashboard" :=
  (login_navigates_by_role demoServices { email := "sam@example.com", password := "secret" }
    false demoProvider demoBrowser { access := "a1", refresh := "r1", user := staffUser }
    rfl).2.1 rfl

/-- C20 as stated fails: a reply whose `detail` is present but empty gives the
fixed message, not the `detail`. -/
theorem login_empty_detail_gives_fixed_message :
    ¬ (∀ (svc : Services) (email password : String) (s : AuthProvider) (b : Browser)
        (e : ApiError) (m : String),
        svc.login email password s.browser = (b, .error e) → e.detail = some m →
        (login svc email password s).2 = { success := false, error := some m }) := by
  intro h
  have := h emptyDetailServices "carol@example.com" "wrong" freshProvider freshProvider.browser
    emptyDetailError "" rfl rfl
  exact absurd this (by decide)

/-- C20 amended: when the login call rejects, `login` leaves the browser
state as the call left it (it writes nothing to the store), leaves the user
state and the router location unchanged, adds only the error notification,
and returns `{ success: false, error: m }`, where `m` is `detail` of the reply
when that is present and not empty, and the fixed message otherwise. -/
theorem login_failure (svc : Services) (email password : String) (s : AuthProvider)
    (b : Browser) (e : ApiError) (herr : svc.login email password s.browser = (b, .error e)) :
    (login svc email password s).1.browser = b
      ∧ (login svc email password s).1.user = s.user
      ∧ (login svc email password s).1.location = s.location
      ∧ (login svc email password s).1.locationState = s.locationState
      ∧ (∃ m, (login svc email password s).1.effects = s.effects ++
            [.request "authAPI.login", .settled "authAPI.login" false, .toastError m]
          ∧ (login svc email password s).2 = { success := false, error := some m }
          ∧ (∀ d, e.detail = some d → d ≠ "" → m = d)
          ∧ (e.detail = none ∨ e.detail = some "" →
              m = "Login failed. Please check your credentials.")) := by
  rw [login_error svc email password s b e herr]
  refine ⟨rfl, rfl, rfl, rfl, _, rfl, rfl, ?_, ?_⟩
  · intro d hd hne
    simp [jsOr, hd, truthy, hne, jsString]
  · intro h
    rcases h with h | h <;> simp [jsOr, h, truthy]

/-- Witness of C20 amended: wrong credentials give the server's message and
change nothing else. -/
theorem login_failure_witness :
    (login failingServices "carol@example.com" "wrong" freshProvider).1.browser =
        freshProvider.browser
      ∧ (login failingServices "carol@example.com" "wrong" freshProvider).1.user =
        freshProvider.user
      ∧ (login failingServices "carol@example.com" "wrong" freshProvider).1.location =
        freshProvider.location
      ∧ (login failingServices "carol@example.com" "wrong" freshProvider).1.locationState =
        freshProvider.locationState
      ∧ (∃ m, (login failingServices "carol@example.com" "wrong" freshProvider).1.effects =
            freshProvider.effects ++
              [.request "authAPI.login", .settled "authAPI.login" false, .toastError m]
          ∧ (login failingServices "carol@example.com" "wrong" freshProvider).2 =
              { success := false, error := some m }
          ∧ (∀ d, badCredentials.detail = some d → d ≠ "" → m = d)
          ∧ (badCredentials.detail = none ∨ badCredentials.detail = some "" →
              m = "Login failed. Please check your credentials.")) :=
  login_failure failingServices "carol@example.com" "wrong" freshProvider freshProvider.browser
    badCredentials rfl

/-! ## Further lemmas on the interceptors and the auth context -/

theorem jsString_some (s : String) : jsString (some s) = s := rfl

/-- A refresh call that answers with a body, as an equation: the access
token of the body is stored and the marked request is sent again; what that
request settles with is the result. -/
theorem responseErrorInterceptor_refresh_ok (srv : Backend) (n : Nat) (b : Browser)
    (error : AxiosError) (c : RequestConfig) (r : String) (data : RefreshData)
    (h401 : error.response.map (·.status) = some 401)
    (hc : error.config = some c) (hretry : c._retry = false)
    (hr : b.localStorage.getItem "refresh_token" = some r) (hne : r ≠ "")
    (hok : srv.refresh r = .ok (some data)) :
    responseErrorInterceptor (api srv (n + 1)) srv b error =
      some ({ localStorage := b.localStorage.setItem "access_token" (jsString data.access)
              href := b.href
              log := b.log ++ [.refreshPost (API_BASE_URL srv ++ "/auth/refresh/") r,
                               .apiRequest (retriedRequest c (jsString data.access))] },
            match srv.adapter (retriedRequest c (jsString data.access)) with
            | .ok reply =>
              .resolved { status := reply.status, data := reply.data,
                          config := retriedRequest c (jsString data.access) }
            | .error reply =>
              .rejected (.axiosError
                { config := some (retriedRequest c (jsString data.access)), response := reply })) := by
  have ht : truthy (some r) = true := (truthy_some r).2 hne
  unfold responseErrorInterceptor
  simp only [h401, hc, hretry, hr, ht, jsString_some, hok, if_true, Bool.not_false]
  show api srv (n + 1) _ (retriedRequest c _) = _
  rw [api_succ]
  simp only [requestInterceptor_retriedRequest]
  cases hreply : srv.adapter (retriedRequest c (jsString data.access)) with
  | ok reply => simp
  | error reply =>
    simp only [List.append_assoc, List.singleton_append]
    rw [responseErrorInterceptor_of_retry _ _ _ _ (retriedRequest c (jsString data.access))
      rfl rfl]

/-- What `logout` leaves behind, whatever the logout call did: the browser the
call left with the three entries removed, no user, the router at `/login`. -/
theorem logout_eq (svc : Services) (s : AuthProvider) :
    ∃ (b : Browser) (calls : List Effect),
      logout svc s =
        { user := none
          loading := s.loading
          browser := { b with localStorage := clearCredentials b.localStorage }
          location := { pathname := "/login", search := "", hash := "" }
          locationState := none
          effects := s.effects ++ calls ++
            [.setUser none, .toastSuccess "Logged out successfully", .navigate "/login"] }
      ∧ (truthy (s.browser.localStorage.getItem "refresh_token") = false →
          b = s.browser ∧ calls = [])
      ∧ (truthy (s.browser.localStorage.getItem "refresh_token") = true →
          b = (svc.logout (jsString (s.browser.localStorage.getItem "refresh_token"))
                s.browser).1
          ∧ ∃ ok, calls = [.request "authAPI.logout", .settled "authAPI.logout" ok]) := by
  by_cases ht : truthy (s.browser.localStorage.getItem "refresh_token") = true
  · cases hres : svc.logout (jsString (s.browser.localStorage.getItem "refresh_token"))
      s.browser with
    | mk b1 r =>
      cases r with
      | ok u =>
        refine ⟨b1, [.request "authAPI.logout", .settled "authAPI.logout" true], ?_, ?_, ?_⟩
        · unfold logout
          simp [ht, hres, navigate]
        · intro hf; rw [ht] at hf; cases hf
        · intro _; exact ⟨rfl, true, rfl⟩
      | error e =>
        refine ⟨b1, [.request "authAPI.logout", .settled "authAPI.logout" false], ?_, ?_, ?_⟩
        · unfold logout
          simp [ht, hres, navigate]
        · intro hf; rw [ht] at hf; cases hf
        · intro _; exact ⟨rfl, false, rfl⟩
  · refine ⟨s.browser, [], ?_, ?_, ?_⟩
    · unfold logout
      simp [ht, navigate]
    · intro _; exact ⟨rfl, rfl⟩
    · intro h; exact absurd h ht

/-! ## Logout and the remaining paths of the response interceptor -/

/-- C21: `logout` always ends with `access_token`, `refresh_token` and `user`
removed from the store, the user state null and the router at `/login` by a
final `navigate` call; the logout call is made, and may succeed or fail,
when a refresh token is stored, and is skipped otherwise. -/
theorem logout_always_clears (svc : Services) (s : AuthProvider) :
    (logout svc s).browser.localStorage.getItem "access_token" = none
      ∧ (logout svc s).browser.localStorage.getItem "refresh_token" = none
      ∧ (logout svc s).browser.localStorage.getItem "user" = none
      ∧ (logout svc s).user = none
      ∧ (logout svc s).location.pathname = "/login"
      ∧ (truthy (s.browser.localStorage.getItem "refresh_token") = false →
          (logout svc s).effects = s.effects ++
            [.setUser none, .toastSuccess "Logged out successfully", .navigate "/login"])
      ∧ (truthy (s.browser.localStorage.getItem "refresh_token") = true →
          ∃ ok, (logout svc s).effects = s.effects ++
            [.request "authAPI.logout", .settled "authAPI.logout" ok, .setUser none,
             .toastSuccess "Logged out successfully", .navigate "/login"]) := by
  obtain ⟨b, calls, heq, hskip, hcall⟩ := logout_eq svc s
  refine ⟨?_, ?_, ?_, ?_, ?_, ?_, ?_⟩
  · rw [heq]; exact (getItem_clearCredentials _).1
  · rw [heq]; exact (getItem_clearCredentials _).2.1
  · rw [heq]; exact (getItem_clearCredentials _).2.2.1
  · rw [heq]
  · rw [heq]
  · intro h
    rw [heq, (hskip h).2]
    simp
  · intro h
    obtain ⟨_, ok, hc⟩ := hcall h
    refine ⟨ok, ?_⟩
    rw [heq, hc]
    simp

/-- Witness of C21: with a stored refresh token and a failing logout call the
session is wiped all the same. -/
theorem logout_always_clears_witness :
    ∃ ok, (logout failingServices demoProvider).effects = demoProvider.effects ++
      [.request "authAPI.logout", .settled "authAPI.logout" ok, .setUser none,
       .toastSuccess "Logged out successfully", .navigate "/login"] :=
  (logout_always_clears failingServices demoProvider).2.2.2.2.2.2 (by decide)

/-- C23: on a 401 for a request not yet marked `_retry`, with no refresh token
stored (or an empty one), the interceptor leaves the browser state as it was
(no refresh call in the log, nothing removed from the store, location
unchanged) and rejects with the error it was given, whose config now carries
the `_retry` mark and whose response is the original one. -/
theorem no_refresh_token_rejects
    (apiCall : Browser → RequestConfig → Option (Browser × Settled))
    (srv : Backend) (b : Browser) (error : AxiosError) (c : RequestConfig)
    (h401 : error.response.map (·.status) = some 401)
    (hc : error.config = some c) (hretry : c._retry = false)
    (htoken : truthy (b.localStorage.getItem "refresh_token") = false) :
    responseErrorInterceptor apiCall srv b error =
        some (b, .rejected (.axiosError { error with config := some { c with _retry := true } }))
      ∧ ({ error with config := some { c with _retry := true } } : AxiosError).response =
          error.response
      ∧ ({ c with _retry := true } : RequestConfig).url = c.url
      ∧ ({ c with _retry := true } : RequestConfig).method = c.method
      ∧ ({ c with _retry := true } : RequestConfig).headers = c.headers
      ∧ ({ c with _retry := true } : RequestConfig).data = c.data := by
  refine ⟨?_, rfl, rfl, rfl, rfl, rfl⟩
  unfold responseErrorInterceptor
  simp [h401, hc, hretry, htoken]

/-- Witness of C23: an anonymous visitor's request answered with 401 is
rejected and nothing else happens. -/
theorem no_refresh_token_rejects_witness :
    responseErrorInterceptor (api demoBackend 1) demoBackend anonymousBrowser demoError =
      some (anonymousBrowser,
        .rejected (.axiosError { demoError with config := some { demoConfig with _retry := true } })) :=
  (no_refresh_token_rejects (api demoBackend 1) demoBackend anonymousBrowser demoError demoConfig
    (by decide) rfl rfl (by decide)).1

/-- C24: when the refresh call answers with a body, the credentials are not
cleared whatever the retried request does: the store is the old one with
`access_token` overwritten, the refresh token and the user are kept and the
location is unchanged; and when the refreshed token is `a` and the retried
request fails, with any status, the caller's promise rejects with the error
of the retried request. -/
theorem retry_failure_keeps_credentials (srv : Backend) (n : Nat) (b : Browser)
    (error : AxiosError) (c : RequestConfig) (r : String) (data : RefreshData)
    (h401 : error.response.map (·.status) = some 401)
    (hc : error.config = some c) (hretry : c._retry = false)
    (hr : b.localStorage.getItem "refresh_token" = some r) (hne : r ≠ "")
    (hok : srv.refresh r = .ok (some data)) :
    ∃ b' result,
      responseErrorInterceptor (api srv (n + 1)) srv b error = some (b', result)
      ∧ b'.localStorage = b.localStorage.setItem "access_token" (jsString data.access)
      ∧ b'.localStorage.getItem "refresh_token" = some r
      ∧ b'.localStorage.getItem "user" = b.localStorage.getItem "user"
      ∧ b'.href = b.href
      ∧ (∀ a reply, data.access = some a → srv.adapter (retriedRequest c a) = .error reply →
          b'.localStorage.getItem "access_token" = some a
          ∧ result = .rejected (.axiosError
              { config := some (retriedRequest c a), response := reply })) := by
  refine ⟨_, _, responseErrorInterceptor_refresh_ok srv n b error c r data h401 hc hretry hr hne
    hok, rfl, ?_, ?_, rfl, ?_⟩
  · show (b.localStorage.setItem "access_token" _).getItem "refresh_token" = some r
    rw [getItem_setItem_other _ _ _ _ (by decide), hr]
  · show (b.localStorage.setItem "access_token" _).getItem "user" = _
    rw [getItem_setItem_other _ _ _ _ (by decide)]
  · intro a reply ha hreply
    have hj : jsString data.access = a := by rw [ha]; rfl
    refine ⟨?_, ?_⟩
    · show (b.localStorage.setItem "access_token" _).getItem "access_token" = some a
      rw [getItem_setItem_same, hj]
    · rw [hj, hreply]

/-- Witness of C24: the token is refreshed, the retried request is rejected
with 401 again, and the session stays. -/
theorem retry_failure_keeps_credentials_witness :
    ∃ b' result,
      responseErrorInterceptor (api rejectingBackend 1) rejectingBackend demoBrowser demoError =
        some (b', result)
      ∧ b'.localStorage = demoBrowser.localStorage.setItem "access_token"
          (jsString (some "new"))
      ∧ b'.localStorage.getItem "refresh_token" = some "r1"
      ∧ b'.localStorage.getItem "user" = demoBrowser.localStorage.getItem "user"
      ∧ b'.href = demoBrowser.href
      ∧ (∀ a reply, (some "new" : Option String) = some a →
          rejectingBackend.adapter (retriedRequest demoConfig a) = .error reply →
          b'.localStorage.getItem "access_token" = some a
          ∧ result = .rejected (.axiosError
              { config := some (retriedRequest demoConfig a), response := reply })) :=
  retry_failure_keeps_credentials rejectingBackend 0 demoBrowser demoError demoConfig "r1"
    { access := some "new" } (by decide) rfl rfl (by decide) (by decide) rfl

/-! ## The password reset form: validation -/

theorem jsLength_eq_length (s : String) (h : ∀ c ∈ s.data, c.val.toNat < 65536) :
    jsLength s = s.length := by
  unfold jsLength
  rw [String.length]
  generalize s.data = l at h
  induction l with
  | nil => rfl
  | cons c l ih =>
    have hc : c.val.toNat < 65536 := h c (List.mem_cons_self _ _)
    have hl := ih (fun d hd => h d (List.mem_cons_of_mem _ hd))
    simp only [List.map_cons, List.sum_cons, hc, if_true, List.length_cons, hl]
    omega

/-- C22: `handleSubmit` sends the `passwordResetConfirm` request exactly when
the two passwords are equal and the new password has a `length` of at least 8
(which is its number of characters when all are in the basic plane);
otherwise nothing is sent, `loading` ends false and the status is the error
`Passwords do not match.` when they differ, and `Password must be at least 8
characters long.` when they are equal but too short. -/
theorem ResetPassword_handleSubmit_validation
    (passwordResetConfirm : ResetRequest → Except ResetError Unit) (s : ResetPasswordState) :
    ((ResetPassword.handleSubmit passwordResetConfirm s).requests =
          s.requests ++ [{ token := s.token, new_password := s.formData.new_password,
                           new_password_confirm := s.formData.new_password_confirm }] ↔
        (s.formData.new_password = s.formData.new_password_confirm
          ∧ 8 ≤ jsLength s.formData.new_password))
      ∧ (¬ (s.formData.new_password = s.formData.new_password_confirm
            ∧ 8 ≤ jsLength s.formData.new_password) →
          (ResetPassword.handleSubmit passwordResetConfirm s).requests = s.requests
          ∧ (ResetPassword.handleSubmit passwordResetConfirm s).loading = false)
      ∧ (s.formData.new_password ≠ s.formData.new_password_confirm →
          (ResetPassword.handleSubmit passwordResetConfirm s).status =
            { type := "error", message := "Passwords do not match." })
      ∧ (s.formData.new_password = s.formData.new_password_confirm →
          jsLength s.formData.new_password < 8 →
          (ResetPassword.handleSubmit passwordResetConfirm s).status =
            { type := "error", message := "Password must be at least 8 characters long." })
      ∧ (ResetPassword.handleSubmit passwordResetConfirm s).loading = false
      ∧ ((∀ c ∈ s.formData.new_password.data, c.val.toNat < 65536) →
          jsLength s.formData.new_password = s.formData.new_password.length) := by
  have hlist : ∀ (l : List ResetRequest) (x : ResetRequest), l ≠ l ++ [x] := by
    intro l x h
    have := congrArg List.length h
    simp at this
  by_cases heq : s.formData.new_password = s.formData.new_password_confirm
  · by_cases hlen : jsLength s.formData.new_password < 8
    · have hlen' : jsLength s.formData.new_password_confirm < 8 := by rw [← heq]; exact hlen
      have hreq : (ResetPassword.handleSubmit passwordResetConfirm s).requests = s.requests := by
        simp [ResetPassword.handleSubmit, heq, hlen']
      have hnot : ¬ (8 ≤ jsLength s.formData.new_password) := by omega
      refine ⟨?_, fun _ => ⟨hreq, ?_⟩, fun h => absurd heq h, fun _ _ => ?_, ?_,
        jsLength_eq_length _⟩
      · rw [hreq]
        constructor
        · intro h; exact absurd h (hlist _ _)
        · intro h; exact absurd h.2 hnot
      · simp [ResetPassword.handleSubmit, heq, hlen']
      · simp [ResetPassword.handleSubmit, heq, hlen']
      · simp [ResetPassword.handleSubmit, heq, hlen']
    · have hge : 8 ≤ jsLength s.formData.new_password := by omega
      have hge' : 8 ≤ jsLength s.formData.new_password_confirm := by rw [← heq]; exact hge
      have hlen' : ¬ jsLength s.formData.new_password_confirm < 8 := by omega
      have hreq : (ResetPassword.handleSubmit passwordResetConfirm s).requests =
          s.requests ++ [{ token := s.token, new_password := s.formData.new_password,
                           new_password_confirm := s.formData.new_password_confirm }] := by
        unfold ResetPassword.handleSubmit
        simp only [heq, bne_self_eq_false, Bool.false_eq_true, if_false, hlen']
        cases passwordResetConfirm _ <;> rfl
      have hload : (ResetPassword.handleSubmit passwordResetConfirm s).loading = false := by
        unfold ResetPassword.handleSubmit
        simp only [heq, bne_self_eq_false, Bool.false_eq_true, if_false, hlen']
      refine ⟨⟨fun _ => ⟨heq, hge⟩, fun _ => hreq⟩, fun h => absurd ⟨heq, hge⟩ h,
        fun h => absurd heq h, fun _ h => absurd h hlen, hload, jsLength_eq_length _⟩
  · have hreq : (ResetPassword.handleSubmit passwordResetConfirm s).requests = s.requests := by
      simp [ResetPassword.handleSubmit, heq]
    refine ⟨?_, fun _ => ⟨hreq, ?_⟩, fun _ => ?_, fun h => absurd h heq, ?_,
      jsLength_eq_length _⟩
    · rw [hreq]
      constructor
      · intro h; exact absurd h (hlist _ _)
      · intro h; exact absurd h.1 heq
    · simp [ResetPassword.handleSubmit, heq]
    · simp [ResetPassword.handleSubmit, heq]
    · simp [ResetPassword.handleSubmit, heq]

/-- Witness of C22: a password of seven characters typed twice is rejected
without a request. -/
theorem ResetPassword_handleSubmit_validation_witness :
    (ResetPassword.handleSubmit (fun _ => .ok ()) shortReset).status =
      { type := "error", message := "Password must be at least 8 characters long." } :=
  (ResetPassword_handleSubmit_validation (fun _ => .ok ()) shortReset).2.2.2.1 rfl (by decide)

/-! ## Redirect chains and the role hierarchy -/

theorem matchRoute_login :
    matchRoute "/login" = some { path := "/login", guard := none, element := .Login } := by
  decide

theorem matchRoute_admin :
    matchRoute "/admin" =
      some { path := "/admin", guard := some .AdminRoute, element := .AdminDashboard } := by
  decide

/-- What a page renders once the session check is over: itself, or one of
the redirects of `Login` and `Register`. -/
theorem renderPage_cases (p : Page) (user : Option User) :
    (∃ q, renderPage p { user := user, loading := false } = .page q)
      ∨ (∃ u, user = some u ∧
          (renderPage p { user := user, loading := false } = .Navigate "/" none true
            ∨ (u.role ≠ "admin" ∧
                renderPage p { user := user, loading := false } = .Navigate "/dashboard" none true)
            ∨ (u.role = "admin" ∧
                renderPage p { user := user, loading := false } = .Navigate "/admin" none true))) := by
  cases user with
  | none => cases p <;> exact Or.inl ⟨_, rfl⟩
  | some u =>
    by_cases ha : u.role = "admin"
    · cases p <;> first
        | exact Or.inl ⟨_, rfl⟩
        | exact Or.inr ⟨u, rfl, Or.inl rfl⟩
        | exact Or.inr ⟨u, rfl, Or.inr (Or.inr ⟨ha, by simp [renderPage, Login, ha]⟩)⟩
    · cases p <;> first
        | exact Or.inl ⟨_, rfl⟩
        | exact Or.inr ⟨u, rfl, Or.inl rfl⟩
        | exact Or.inr ⟨u, rfl, Or.inr (Or.inl ⟨ha, by simp [renderPage, Login, ha]⟩)⟩

/-- What `App` renders once the session check is over: a page, the redirect
to `/login` for a visitor who is not signed in, or one of three redirects for
a signed-in user. -/
theorem App_settled_cases (user : Option User) (location : Location) :
    (∃ p, App { user := user, loading := false } location = .page p)
      ∨ (user = none ∧ ∃ state,
          App { user := user, loading := false } location = .Navigate "/login" state true)
      ∨ (∃ u, user = some u ∧
          (App { user := user, loading := false } location = .Navigate "/" none true
            ∨ (u.role ≠ "admin" ∧
                App { user := user, loading := false } location = .Navigate "/dashboard" none true)
            ∨ (u.role = "admin" ∧
                App { user := user, loading := false } location = .Navigate "/admin" none true))) := by
  unfold App
  cases matchRoute location.pathname with
  | none => exact Or.inl ⟨_, rfl⟩
  | some r =>
    dsimp only
    cases hg : r.guard with
    | none =>
      dsimp only
      rcases renderPage_cases r.element user with h | h
      · exact Or.inl h
      · exact Or.inr (Or.inr h)
    | some g =>
      dsimp only
      cases user with
      | none =>
        cases g
        · exact Or.inr (Or.inl ⟨rfl, _, rfl⟩)
        · exact Or.inr (Or.inl ⟨rfl, _, rfl⟩)
      | some u =>
        cases g with
        | ProtectedRoute =>
          by_cases hs : isStaff (some u) = true
          · have hE : Guard.render .ProtectedRoute { user := some u, loading := false } location =
                .Outlet := by simp [Guard.render, ProtectedRoute, hs]
            simp only [hE]
            rcases renderPage_cases r.element (some u) with h | h
            · exact Or.inl h
            · exact Or.inr (Or.inr h)
          · have hE : Guard.render .ProtectedRoute { user := some u, loading := false } location =
                .Navigate "/" none true := by simp [Guard.render, ProtectedRoute, hs]
            simp only [hE]
            exact Or.inr (Or.inr ⟨u, rfl, Or.inl trivial⟩)
        | AdminRoute =>
          by_cases ha : isAdmin (some u) = true
          · have hE : Guard.render .AdminRoute { user := some u, loading := false } location =
                .Outlet := by simp [Guard.render, AdminRoute, ha]
            simp only [hE]
            rcases renderPage_cases r.element (some u) with h | h
            · exact Or.inl h
            · exact Or.inr (Or.inr h)
          · have hE : Guard.render .AdminRoute { user := some u, loading := false } location =
                .Navigate "/dashboard" none true := by simp [Guard.render, AdminRoute, ha]
            have hr : u.role ≠ "admin" := fun h => ha ((isAdmin_some u).2 h)
            simp only [hE]
            exact Or.inr (Or.inr ⟨u, rfl, Or.inr (Or.inl ⟨hr, trivial⟩)⟩)

theorem followRedirects_page (n : Nat) (auth : AuthState) (location : Location) (p : Page)
    (h : App auth location = .page p) :
    followRedirects n auth location = some (.page p, 0) := by
  cases n <;> simp [followRedirects, h]

theorem followRedirects_navigate (n : Nat) (auth : AuthState) (location : Location)
    (target : String) (state : Option NavigateState) (replace : Bool)
    (h : App auth location = .Navigate target state replace) :
    followRedirects (n + 1) auth location =
      (followRedirects n auth { pathname := target, search := "", hash := "" }).map
        (fun r => (r.1, r.2 + 1)) := by
  simp [followRedirects, h]

/-- A signed-in user is shown a page at `/dashboard` after at most one more
redirect. -/
theorem followRedirects_dashboard (u : User) :
    ∃ p k, followRedirects 1 { user := some u, loading := false }
        { pathname := "/dashboard", search := "", hash := "" } = some (.page p, k) ∧ k ≤ 1 := by
  by_cases hs : isStaff (some u) = true
  · refine ⟨.StaffDashboard, 0, followRedirects_page _ _ _ _ ?_, by omega⟩
    simp [App, matchRoute_dashboard, Guard.render, ProtectedRoute, hs, renderPage]
  · have hnav : App { user := some u, loading := false }
        { pathname := "/dashboard", search := "", hash := "" } = .Navigate "/" none true := by
      simp [App, matchRoute_dashboard, Guard.render, ProtectedRoute, hs]
    have hroot : App { user := some u, loading := false }
        { pathname := "/", search := "", hash := "" } = .page .Home := by
      simp [App, matchRoute_root, renderPage]
    refine ⟨.Home, 1, ?_, by omega⟩
    rw [followRedirects_navigate 0 _ _ _ _ _ hnav, followRedirects_page 0 _ _ _ hroot]
    rfl

/-- C25: once the session check is over (`loading` false), for a visitor who
is not signed in or a user of any role, and from every location, following the
redirects of `ProtectedRoute`, `AdminRoute`, `Login` and `Register` ends on a
rendered page after at most two redirects. -/
theorem redirects_never_loop (user : Option User) (location : Location) :
    ∃ p k, followRedirects 2 { user := user, loading := false } location = some (.page p, k)
      ∧ k ≤ 2 := by
  rcases App_settled_cases user location with ⟨p, hp⟩ | ⟨hu, state, hnav⟩ | ⟨u, hu, h⟩
  · exact ⟨p, 0, followRedirects_page _ _ _ _ hp, by omega⟩
  · subst hu
    have hlogin : App { user := none, loading := false }
        { pathname := "/login", search := "", hash := "" } = .page .Login := by
      simp [App, matchRoute_login, renderPage, Login]
    refine ⟨.Login, 1, ?_, by omega⟩
    rw [followRedirects_navigate 1 _ _ _ _ _ hnav, followRedirects_page 1 _ _ _ hlogin]
    rfl
  · subst hu
    rcases h with hnav | ⟨_, hnav⟩ | ⟨ha, hnav⟩
    · have hroot : App { user := some u, loading := false }
          { pathname := "/", search := "", hash := "" } = .page .Home := by
        simp [App, matchRoute_root, renderPage]
      refine ⟨.Home, 1, ?_, by omega⟩
      rw [followRedirects_navigate 1 _ _ _ _ _ hnav, followRedirects_page 1 _ _ _ hroot]
      rfl
    · obtain ⟨p, k, hk, hle⟩ := followRedirects_dashboard u
      refine ⟨p, k + 1, ?_, by omega⟩
      rw [followRedirects_navigate 1 _ _ _ _ _ hnav, hk]
      rfl
    · have hadm : isAdmin (some u) = true := (isAdmin_some u).2 ha
      have hadmin : App { user := some u, loading := false }
          { pathname := "/admin", search := "", hash := "" } = .page .AdminDashboard := by
        simp [App, matchRoute_admin, Guard.render, AdminRoute, hadm, renderPage]
      refine ⟨.AdminDashboard, 1, ?_, by omega⟩
      rw [followRedirects_navigate 1 _ _ _ _ _ hnav, followRedirects_page 1 _ _ _ hadmin]
      rfl

/-- C26: `isAdmin()` implies `isStaff()` for every user, so whenever
`AdminRoute` renders its subtree `ProtectedRoute` does too, and `hasRole`
returns false for every argument when `user` is null. -/
theorem role_hierarchy :
    (∀ user : Option User, isAdmin user = true → isStaff user = true)
      ∧ (∀ (auth : AuthState) (location : Location),
          AdminRoute auth location = .Outlet → ProtectedRoute auth location = .Outlet)
      ∧ (∀ roles : Roles, hasRole none roles = false) := by
  have h1 : ∀ user : Option User, isAdmin user = true → isStaff user = true := by
    intro user h
    cases user with
    | none => simp [isAdmin, hasRole] at h
    | some u => exact (isStaff_some u).2 (Or.inr ((isAdmin_some u).1 h))
  refine ⟨h1, ?_, fun _ => rfl⟩
  intro auth location h
  obtain ⟨user, loading⟩ := auth
  cases loading
  · cases user with
    | none => simp [AdminRoute] at h
    | some u =>
      by_cases ha : isAdmin (some u) = true
      · simp [ProtectedRoute, h1 _ ha]
      · simp [AdminRoute, ha] at h
  · simp [AdminRoute] at h

/-- Witness of C26: an admin passes the staff check. -/
theorem role_hierarchy_witness : isStaff (some adminUser) = true :=
  role_hierarchy.1 (some adminUser) (by decide)

/-! ## The cached user as a flag -/

/-- C27 as stated fails. Two stores without a token that both hold a `user`
entry, of different content, are left as they are, so the final stores
differ; and two stores with the same token whose `user` entries are both
present, one of them empty, give different user states, since the empty entry
counts as no session. -/
theorem cached_user_content_can_matter :
    (cachedAdminProvider.browser.localStorage.getItem "access_token" =
          cachedStaffProvider.browser.localStorage.getItem "access_token"
        ∧ (cachedAdminProvider.browser.localStorage.getItem "user").isSome =
          (cachedStaffProvider.browser.localStorage.getItem "user").isSome
        ∧ (initAuth demoServices cachedAdminProvider).browser.localStorage.getItem "user" ≠
          (initAuth demoServices cachedStaffProvider).browser.localStorage.getItem "user")
      ∧ (emptyUserProvider.browser.localStorage.getItem "access_token" =
          customerUserProvider.browser.localStorage.getItem "access_token"
        ∧ (emptyUserProvider.browser.localStorage.getItem "user").isSome =
          (customerUserProvider.browser.localStorage.getItem "user").isSome
        ∧ (initAuth demoServices emptyUserProvider).user ≠
          (initAuth demoServices customerUserProvider).user) := by
  decide

/-- C27 amended: for two initial states with the same user state whose stores
agree on every entry but `user` and on whether `user` is non-empty, and the
same answer of `getMe`, `initAuth` yields the same user state; when the token
and `user` are both non-empty the final stores are the same as well; and when
either is absent or empty no request is made, and the user state and the
store stay as they were. -/
theorem initAuth_reads_user_as_flag (svc : Services) (s₁ s₂ : AuthProvider)
    (huser : s₁.user = s₂.user)
    (hother : ∀ k, k ≠ "user" →
      s₁.browser.localStorage.getItem k = s₂.browser.localStorage.getItem k)
    (hflag : truthy (s₁.browser.localStorage.getItem "user") =
      truthy (s₂.browser.localStorage.getItem "user"))
    (hanswer : (svc.getMe s₁.browser).2 = (svc.getMe s₂.browser).2)
    (hstore : ∀ k, k ≠ "user" →
      (svc.getMe s₁.browser).1.localStorage.getItem k =
        (svc.getMe s₂.browser).1.localStorage.getItem k) :
    (initAuth svc s₁).user = (initAuth svc s₂).user
      ∧ (truthy (s₁.browser.localStorage.getItem "access_token") = true →
          truthy (s₁.browser.localStorage.getItem "user") = true →
          ∀ k, (initAuth svc s₁).browser.localStorage.getItem k =
            (initAuth svc s₂).browser.localStorage.getItem k)
      ∧ (¬ (truthy (s₁.browser.localStorage.getItem "access_token") = true
            ∧ truthy (s₁.browser.localStorage.getItem "user") = true) →
          (initAuth svc s₁).effects = s₁.effects ++ [.setLoading false]
          ∧ (initAuth svc s₁).user = s₁.user
          ∧ (initAuth svc s₁).browser = s₁.browser) := by
  have htoken : s₁.browser.localStorage.getItem "access_token" =
      s₂.browser.localStorage.getItem "access_token" := hother _ (by decide)
  by_cases h : truthy (s₁.browser.localStorage.getItem "access_token") = true
      ∧ truthy (s₁.browser.localStorage.getItem "user") = true
  · obtain ⟨ht, hu⟩ := h
    have ht₂ : truthy (s₂.browser.localStorage.getItem "access_token") = true := by
      rw [← htoken]; exact ht
    have hu₂ : truthy (s₂.browser.localStorage.getItem "user") = true := by
      rw [← hflag]; exact hu
    cases h₁ : svc.getMe s₁.browser with
    | mk b₁ r₁ =>
      cases h₂ : svc.getMe s₂.browser with
      | mk b₂ r₂ =>
        rw [h₁, h₂] at hanswer hstore
        simp only at hanswer hstore
        subst hanswer
        cases r₁ with
        | ok d =>
          rw [initAuth_ok svc s₁ b₁ d ht hu h₁, initAuth_ok svc s₂ b₂ d ht₂ hu₂ h₂]
          refine ⟨rfl, fun _ _ k => ?_, fun hn => absurd ⟨ht, hu⟩ hn⟩
          by_cases hk : k = "user"
          · subst hk
            show (b₁.localStorage.setItem "user" _).getItem "user" =
              (b₂.localStorage.setItem "user" _).getItem "user"
            rw [getItem_setItem_same, getItem_setItem_same]
          · show (b₁.localStorage.setItem "user" _).getItem k =
              (b₂.localStorage.setItem "user" _).getItem k
            rw [getItem_setItem_other _ _ _ _ hk, getItem_setItem_other _ _ _ _ hk]
            exact hstore k hk
        | error e =>
          rw [initAuth_error svc s₁ b₁ e ht hu h₁, initAuth_error svc s₂ b₂ e ht₂ hu₂ h₂]
          refine ⟨rfl, fun _ _ k => ?_, fun hn => absurd ⟨ht, hu⟩ hn⟩
          show (clearCredentials b₁.localStorage).getItem k =
            (clearCredentials b₂.localStorage).getItem k
          by_cases h1 : k = "access_token"
          · subst h1
            rw [(getItem_clearCredentials _).1, (getItem_clearCredentials _).1]
          · by_cases h2 : k = "refresh_token"
            · subst h2
              rw [(getItem_clearCredentials _).2.1, (getItem_clearCredentials _).2.1]
            · by_cases h3 : k = "user"
              · subst h3
                rw [(getItem_clearCredentials _).2.2.1, (getItem_clearCredentials _).2.2.1]
              · rw [(getItem_clearCredentials _).2.2.2 k h1 h2 h3,
                  (getItem_clearCredentials _).2.2.2 k h1 h2 h3]
                exact hstore k h3
  · have h₂ : ¬ (truthy (s₂.browser.localStorage.getItem "access_token") = true
        ∧ truthy (s₂.browser.localStorage.getItem "user") = true) := by
      rw [← htoken, ← hflag]; exact h
    rw [initAuth_no_session svc s₁ h, initAuth_no_session svc s₂ h₂]
    exact ⟨huser, fun ht hu => absurd ⟨ht, hu⟩ h, fun _ => ⟨rfl, rfl, rfl⟩⟩

/-- Witness of C27 amended: a cached customer and a cached staff member with
the same token are revalidated to the same user. -/
theorem initAuth_reads_user_as_flag_witness :
    (initAuth demoServices customerUserProvider).user =
      (initAuth demoServices staffUserProvider).user :=
  (initAuth_reads_user_as_flag demoServices customerUserProvider staffUserProvider rfl
    (fun k hk => by
      simp [customerUserProvider, staffUserProvider, AuthProvider.mount, LocalStorage.getItem,
        LocalStorage.setItem, hk])
    (by decide) rfl
    (fun k hk => by
      simp [demoServices, customerUserProvider, staffUserProvider, AuthProvider.mount,
        LocalStorage.getItem, LocalStorage.setItem, hk])).1

/-! ## Pagination -/

theorem pushRange_five (a b : Nat) (h : b + 1 - a = 5) :
    pushRange a b = [.num a, .num (a + 1), .num (a + 2), .num (a + 3), .num (a + 4)] := by
  unfold pushRange
  rw [h]
  rfl

theorem pushRange_three (a b : Nat) (h : b + 1 - a = 3) :
    pushRange a b = [.num a, .num (a + 1), .num (a + 2)] := by
  unfold pushRange
  rw [h]
  rfl

/-- The page list when the current page is among the first four. -/
theorem pages_head (currentPage totalPages : Nat) (ht : 7 < totalPages) (hc : currentPage ≤ 4) :
    Pagination.pages currentPage totalPages =
      some [.num 1, .num 2, .num 3, .num 4, .num 5, .ellipsis, .num totalPages] := by
  have h1 : ¬ totalPages ≤ 1 := by omega
  simp [Pagination.pages, h1, ht, hc, pushRange_five 1 5 rfl]

/-- The page list when the current page is among the last four. -/
theorem pages_tail (currentPage totalPages : Nat) (ht : 7 < totalPages) (hc : 4 < currentPage)
    (hl : totalPages - 3 ≤ currentPage) :
    Pagination.pages currentPage totalPages =
      some [.num 1, .ellipsis, .num (totalPages - 4), .num (totalPages - 4 + 1),
            .num (totalPages - 4 + 2), .num (totalPages - 4 + 3), .num (totalPages - 4 + 4)] := by
  have h1 : ¬ totalPages ≤ 1 := by omega
  have h4 : ¬ currentPage ≤ 4 := by omega
  simp [Pagination.pages, h1, ht, h4, hl,
    pushRange_five (totalPages - 4) totalPages (by omega)]

/-- The page list when the current page is in the middle. -/
theorem pages_middle (currentPage totalPages : Nat) (ht : 7 < totalPages) (hc : 4 < currentPage)
    (hl : currentPage < totalPages - 3) :
    Pagination.pages currentPage totalPages =
      some [.num 1, .ellipsis, .num (currentPage - 1), .num (currentPage - 1 + 1),
            .num (currentPage - 1 + 2), .ellipsis, .num totalPages] := by
  have h1 : ¬ totalPages ≤ 1 := by omega
  have h4 : ¬ currentPage ≤ 4 := by omega
  have h3 : ¬ totalPages - 3 ≤ currentPage := by omega
  simp [Pagination.pages, h1, ht, h4, h3,
    pushRange_three (currentPage - 1) (currentPage + 1) (by omega)]

/-- C28: for `totalPages > 7` and `1 ≤ currentPage ≤ totalPages` the page
list has exactly 7 entries, contains 1, `currentPage` and `totalPages`, its
numbers are strictly increasing and lie between 1 and `totalPages`, and every
`...` entry stands between two numbers that are not consecutive; for
`2 ≤ totalPages ≤ 7` the list is exactly 1 to `totalPages`, without `...`. -/
theorem Pagination_pages_shape (currentPage totalPages : Nat) :
    (7 < totalPages → 1 ≤ currentPage → currentPage ≤ totalPages →
        ∃ l, Pagination.pages currentPage totalPages = some l
          ∧ l.length = 7
          ∧ PageItem.num 1 ∈ l ∧ PageItem.num currentPage ∈ l ∧ PageItem.num totalPages ∈ l
          ∧ (pageNumbers l).Pairwise (· < ·)
          ∧ (∀ n ∈ pageNumbers l, 1 ≤ n ∧ n ≤ totalPages)
          ∧ (∀ i, l[i]? = some PageItem.ellipsis →
              ∃ a b, 0 < i ∧ l[i - 1]? = some (PageItem.num a)
                ∧ l[i + 1]? = some (PageItem.num b) ∧ a + 1 < b))
      ∧ (2 ≤ totalPages → totalPages ≤ 7 →
          Pagination.pages currentPage totalPages =
            some ((List.range' 1 totalPages).map PageItem.num)
          ∧ PageItem.ellipsis ∉ (List.range' 1 totalPages).map PageItem.num) := by
  constructor
  · intro ht h1 hle
    by_cases hc : currentPage ≤ 4
    · refine ⟨_, pages_head currentPage totalPages ht hc, rfl, ?_, ?_, ?_, ?_, ?_, ?_⟩
      · simp
      · have : currentPage = 1 ∨ currentPage = 2 ∨ currentPage = 3 ∨ currentPage = 4 := by omega
        rcases this with h | h | h | h <;> simp [h]
      · simp
      · simp [pageNumbers]
        omega
      · intro n hn
        simp [pageNumbers] at hn
        omega
      · intro i hi
        rcases i with _ | _ | _ | _ | _ | _ | _ | i
        all_goals simp at hi
        exact ⟨5, totalPages, by omega, rfl, rfl, by omega⟩
    · by_cases hl : totalPages - 3 ≤ currentPage
      · refine ⟨_, pages_tail currentPage totalPages ht (by omega) hl, rfl, ?_, ?_, ?_, ?_, ?_, ?_⟩
        · simp
        · simp only [List.mem_cons, PageItem.num.injEq, List.mem_singleton, List.not_mem_nil]
          omega
        · simp only [List.mem_cons, PageItem.num.injEq, List.mem_singleton, List.not_mem_nil]
          omega
        · simp [pageNumbers]
          omega
        · intro n hn
          simp [pageNumbers] at hn
          omega
        · intro i hi
          rcases i with _ | _ | _ | _ | _ | _ | _ | i
          all_goals simp at hi
          exact ⟨1, totalPages - 4, by omega, rfl, rfl, by omega⟩
      · refine ⟨_, pages_middle currentPage totalPages ht (by omega) (by omega), rfl,
          ?_, ?_, ?_, ?_, ?_, ?_⟩
        · simp
        · simp only [List.mem_cons, PageItem.num.injEq, List.mem_singleton, List.not_mem_nil]
          omega
        · simp
        · simp [pageNumbers]
          omega
        · intro n hn
          simp [pageNumbers] at hn
          omega
        · intro i hi
          rcases i with _ | _ | _ | _ | _ | _ | _ | i
          all_goals simp at hi
          · exact ⟨1, currentPage - 1, by omega, rfl, rfl, by omega⟩
          · exact ⟨currentPage - 1 + 2, totalPages, by omega, rfl, rfl, by omega⟩
  · intro h2 h7
    have h1 : ¬ totalPages ≤ 1 := by omega
    have hs : ¬ 7 < totalPages := by omega
    refine ⟨?_, by simp⟩
    simp [Pagination.pages, h1, hs, pushRange]

/-- Witness of C28: page 6 of 12 is shown as 1, `...`, 5, 6, 7, `...`, 12. -/
theorem Pagination_pages_shape_witness :
    ∃ l, Pagination.pages 6 12 = some l
      ∧ l.length = 7
      ∧ PageItem.num 1 ∈ l ∧ PageItem.num 6 ∈ l ∧ PageItem.num 12 ∈ l
      ∧ (pageNumbers l).Pairwise (· < ·)
      ∧ (∀ n ∈ pageNumbers l, 1 ≤ n ∧ n ≤ 12)
      ∧ (∀ i, l[i]? = some PageItem.ellipsis →
          ∃ a b, 0 < i ∧ l[i - 1]? = some (PageItem.num a)
            ∧ l[i + 1]? = some (PageItem.num b) ∧ a + 1 < b) :=
  (Pagination_pages_shape 6 12).1 (by decide) (by decide) (by decide)

end Webapp
